import Mathlib

/-! c99-server: the socket transport (`src/common/Sock.c`)

Shallow embedding of the socket state machine as compiled for the default
native backend (`__linux__` defined, `_WIN32` and `__EMSCRIPTEN__` not).

* A `Socket` is the C struct of `unity.h`, field by field.
* Every operation is a pure function of the socket, its arguments and the
  results the operating system hands back for the calls the operation makes
  (an "outcome" record per operation), and returns the socket afterwards
  together with the ordered list of backend calls and callback invocations
  it performed.
* The five callbacks of `_G` belong to the embedder: an invocation is recorded
  as an event with its arguments; what the embedder does inside is not part of
  `Sock.c`.  `onsockalloc` is the exception, its result (the storage of the
  child socket) is part of the outcome record of `Sock__accept`.
* `LOG_DEBUGF` lines only print and are left out.  `DEBUGGER` only traps into
  an attached debugger and is left out.
-/

/-! ## Data model (`unity.h`) -/

/-- The enum `SocketState` of `unity.h`. -/
inductive SocketState where
  | SOCKET_NONE
  | SOCKET_ACCEPTING
  | SOCKET_CONNECTED
  | SOCKET_CLOSED
  deriving DecidableEq, Repr

/-- The enum `SessionState` of `unity.h`. -/
inductive SessionState where
  | SESSION_NONE
  | SESSION_SERVER_HANDSHAKE_AWAIT
  | SESSION_SERVER_HANDSHAKE_RESPONDED
  | SESSION_CLIENT_HANDSHAKE_REQUESTED
  | SESSION_SERVER_CONNECTED
  | SESSION_CLIENT_HANDSHAKE_RECEIVED
  | SESSION_CLIENT_HELLO_SENT
  | SESSION_CLIENT_WASM_CONNECT_CB
  | SESSION_CLIENT_CONNECTED
  | SESSION_SERVER_HUNGUP
  deriving DecidableEq, Repr

/-- The struct `ByteBuffer` of `unity.h`: four pointers into one region
(`u8 *data, *read, *write, *end`), kept as addresses. -/
structure ByteBuffer where
  data : Nat
  read : Nat
  write : Nat
  end_ : Nat
  deriving DecidableEq, Repr

/-- The platform struct `sockaddr_in` as far as `Sock.c` touches it. -/
structure sockaddr_in where
  sin_family : Nat
  sin_port : Nat
  s_addr : Nat
  deriving DecidableEq, Repr

/-- The struct `Socket` of `unity.h`.  `addr` and `port` are the contents of
the `char[256]` and `char[6]` arrays, `ts` is the bit pattern of the `f32`,
`userdata` the pointer value.  The platform members of the three backends
(`_nix_*`, `_win_*`, `_web_socket`) are kept side by side; a build has only
its own and the code of a backend touches only its own. -/
structure Socket where
  addr : List Nat
  port : List Nat
  opts : Nat
  _nix_socket : Nat
  _nix_addr : sockaddr_in
  _win_socket : Nat
  _win_addr : Nat
  _web_socket : Nat
  message : ByteBuffer
  readBuf : ByteBuffer
  writeBuf : ByteBuffer
  state : SocketState
  sessionState : SessionState
  connectedAt : Nat
  ping : Nat
  ts : Nat
  rate : Nat
  cl_updaterate : Nat
  cl_interp : Nat
  lastPacket : Nat
  lastSnapshot : Nat
  userdata : Nat
  deriving DecidableEq, Repr

/-- Constants of the platform headers (`errno.h`, `netinet/in.h`) that
`Sock.c` names; they are not defined in the repository and are a parameter. -/
structure Posix where
  EAGAIN : Int
  EWOULDBLOCK : Int
  EINPROGRESS : Int
  AF_INET : Nat
  INADDR_ANY : Nat
  deriving DecidableEq, Repr

/-- The values of the `Posix` constants on Linux. -/
def linux : Posix :=
  { EAGAIN := 11, EWOULDBLOCK := 11, EINPROGRESS := 115, AF_INET := 2, INADDR_ANY := 0 }

/-- The build: whether `DEBUG_SLOW` is defined (otherwise `ASSERT_CONTEXT(...)`
expands to nothing, its condition is not even evaluated), and the value of the
global `__expect_assert` that `Console__abort` consults. -/
structure Build where
  DEBUG_SLOW : Bool
  expect_assert : Bool
  deriving DecidableEq, Repr

/-- One observable step of an operation: a backend call on a descriptor or an
invocation of one of the five callbacks of `_G`, with the arguments passed. -/
inductive Event where
  | socket
  | fcntl (fd : Nat)
  | setsockopt (fd : Nat)
  | bind (fd : Nat) (addr : sockaddr_in)
  | listen (fd : Nat) (backlog : Nat)
  | accept (fd : Nat)
  | getpeername (fd : Nat)
  | connect (fd : Nat) (addr : sockaddr_in)
  | read (fd : Nat) (len : Nat)
  | recv (fd : Nat) (len : Nat)
  | send (fd : Nat) (buf : List Nat) (len : Nat)
  | close (fd : Nat)
  | closesocket (fd : Nat)
  | onsockalloc
  | onsockaccept (listener : Socket) (accepted : Socket)
  | onsockconnect (client : Socket)
  | onsockrecv (sock : Socket) (buf : List Nat) (len : Nat)
  | onsocksend (sock : Socket) (buf : List Nat) (len : Nat)
  deriving DecidableEq, Repr

/-- True for the backend calls, false for the callbacks. -/
def Event.isBackend : Event → Bool
  | .onsockalloc => false
  | .onsockaccept _ _ => false
  | .onsockconnect _ => false
  | .onsockrecv _ _ _ => false
  | .onsocksend _ _ _ => false
  | _ => true

/-- True for the callback invocations. -/
def Event.isCallback (e : Event) : Bool := !e.isBackend

/-- Result of a `void` operation: the socket afterwards and what was done. -/
structure Run where
  sock : Socket
  trace : List Event
  deriving DecidableEq, Repr

/-- Result of an operation returning `s8`. -/
structure RunRet where
  sock : Socket
  trace : List Event
  ret : Int
  deriving DecidableEq, Repr

/-- What a system call hands back: its return value and `errno`. -/
structure SysRet where
  ret : Int
  errno : Int
  deriving DecidableEq, Repr

/-- What `read(fd, buf, len)` hands back: the value stored in `int bytesRead`,
`errno`, and the contents of the local `buf` after the call. -/
structure ReadOutcome where
  ret : Int
  errno : Int
  buf : List Nat
  deriving DecidableEq, Repr

/-! ## Operations (`Sock.c`, `__linux__`) -/

/-- The function `Sock__async`: `fcntl(socket->_nix_socket, F_SETFL, O_NONBLOCK)`, result ignored. -/
def Sock__async (socket : Socket) : List Event :=
  [Event.fcntl socket._nix_socket]

/-- The function `Sock__close`: a no-op on a Closed socket, otherwise sets the
state and session state, closes the descriptor and resets it to 0. -/
def Sock__close (socket : Socket) : Run :=
  if socket.state = SocketState.SOCKET_CLOSED then
    { sock := socket, trace := [] }
  else
    { sock := { socket with
                  state := SocketState.SOCKET_CLOSED
                  sessionState := SessionState.SESSION_SERVER_HUNGUP
                  _nix_socket := 0 }
      trace := [Event.close socket._nix_socket] }

/-- The function `Sock__read(socket, len)`; `o` is what `read` hands back if it is called.
A `bytesRead` that is neither positive, `-1` nor `0` falls through to the
final `return -1`. -/
def Sock__read (P : Posix) (socket : Socket) (len : Nat) (o : ReadOutcome) : RunRet :=
  if len < 1 then
    { sock := socket, trace := [], ret := -1 }
  else if socket.state = SocketState.SOCKET_CLOSED then
    { sock := socket, trace := [], ret := -1 }
  else
    let bytesRead := o.ret
    let t := [Event.read socket._nix_socket len]
    if bytesRead > 0 then
      { sock := socket
        trace := t ++ [Event.onsockrecv socket (o.buf.take bytesRead.toNat) bytesRead.toNat]
        ret := 1 }
    else if bytesRead = -1 then
      if o.errno = P.EAGAIN ∨ o.errno = P.EWOULDBLOCK then
        { sock := socket, trace := t, ret := 0 }
      else
        let c := Sock__close socket
        { sock := c.sock, trace := t ++ c.trace, ret := -1 }
    else if bytesRead = 0 then
      let c := Sock__close socket
      { sock := c.sock, trace := t ++ c.trace, ret := -1 }
    else
      { sock := socket, trace := t, ret := -1 }

/-- The function `Sock__write(socket, buf, len)`; `o` is what `send` hands back if it is
called (`o.ret` is the value stored in `int bytesWritten`). -/
def Sock__write (P : Posix) (socket : Socket) (buf : List Nat) (len : Nat) (o : SysRet) : RunRet :=
  if len < 1 then
    { sock := socket, trace := [], ret := -1 }
  else if socket.state = SocketState.SOCKET_CLOSED then
    { sock := socket, trace := [], ret := -1 }
  else
    let bytesWritten := o.ret
    let t := [Event.send socket._nix_socket buf len]
    if bytesWritten = -1 then
      if o.errno = P.EAGAIN ∨ o.errno = P.EWOULDBLOCK then
        { sock := socket, trace := t, ret := -1 }
      else
        let c := Sock__close socket
        { sock := c.sock, trace := t ++ c.trace, ret := -1 }
    else
      { sock := socket, trace := t ++ [Event.onsocksend socket buf len], ret := 1 }

/-- The function `Sock__shutdown`: only the `_WIN32` branch does anything after the check. -/
def Sock__shutdown (socket : Socket) : Run :=
  if socket.state = SocketState.SOCKET_CLOSED then
    { sock := socket, trace := [] }
  else
    { sock := socket, trace := [] }

/-- The function `Sock__free`: empty outside `_WIN32`. -/
def Sock__free (socket : Socket) : Run :=
  { sock := socket, trace := [] }

/-- What `ASSERT_CONTEXT` did: whether `Console__abort` set the global
`__asserted` and returned (unit-test trap), and whether it reached `abort()`. -/
structure Asserted where
  trace : List Event
  asserted : Bool
  aborted : Bool
  deriving DecidableEq, Repr

/-- The function `Sock__noNagle`: the `setsockopt` call is the condition of an
`ASSERT_CONTEXT`, so it exists only in a `DEBUG_SLOW` build; there a result
other than `0` reaches `Console__abort`. -/
def Sock__noNagle (B : Build) (socket : Socket) (setsockopt_ret : Int) : Asserted :=
  if B.DEBUG_SLOW then
    if 0 = setsockopt_ret then
      { trace := [Event.setsockopt socket._nix_socket], asserted := false, aborted := false }
    else if B.expect_assert then
      { trace := [Event.setsockopt socket._nix_socket], asserted := true, aborted := false }
    else
      { trace := [Event.setsockopt socket._nix_socket], asserted := false, aborted := true }
  else
    { trace := [], asserted := false, aborted := false }

/-- The libc `memcpy(dst, src, n)` on array contents, `src` being the `n` bytes copied:
the first `n` bytes of `dst` are replaced (the caller keeps `n` within `dst`). -/
def memcpy (dst src : List Nat) : List Nat :=
  src ++ dst.drop src.length

/-- The libc `isspace` of the C locale. -/
def isspace (c : Nat) : Bool := c = 32 || (9 ≤ c && c ≤ 13)

/-- The libc `isdigit`. -/
def isdigit (c : Nat) : Bool := 48 ≤ c && c ≤ 57

/-- The decimal digits at the start of a string, accumulated into `acc`. -/
def atoiDigits : List Nat → Nat → Nat
  | [], acc => acc
  | c :: cs, acc => if isdigit c then atoiDigits cs (acc * 10 + (c - 48)) else acc

/-- The `atoi` of libc on the characters of a C string (terminator not included):
leading white space, an optional sign, then digits.  No `int` overflow is
modelled; a port that fits `char port[6]` has at most five characters. -/
def atoi (s : List Nat) : Int :=
  match s.dropWhile isspace with
  | 45 :: t => - (atoiDigits t 0 : Int)
  | 43 :: t => (atoiDigits t 0 : Int)
  | t => (atoiDigits t 0 : Int)

/-- The `htons` on a little-endian host; the argument is first converted to
`uint16_t`. -/
def htons (x : Int) : Nat :=
  let v := (x % 65536).toNat
  (v % 256) * 256 + v / 256

/-- The `ntohs` on a little-endian host. -/
def ntohs (x : Nat) : Nat :=
  let v := x % 65536
  (v % 256) * 256 + v / 256

/-- Conversion of an `int` to `u64`, as in `csocket->_nix_socket = r`. -/
def toU64 (r : Int) : Nat := (r % 18446744073709551616).toNat

/-- What the platform hands back during `Sock__init`: the result of
`socket()`, of `setsockopt`, and of `inet_pton` with the address it stores
when it returns `1`. -/
structure InitOutcome where
  socket_ret : Int
  setsockopt_ret : Int
  inet_pton_ret : Int
  inet_pton_addr : Nat
  deriving DecidableEq, Repr

/-- Result of `Sock__init`. -/
structure RunInit where
  sock : Socket
  trace : List Event
  asserted : Bool
  aborted : Bool
  deriving DecidableEq, Repr

/-- The function `Sock__init(sock, addr, port, opts)`; `addr` and `port` are the characters
of the C strings.  The `socket()` call sits in the condition of an
`ASSERT_CONTEXT` and so exists only in a `DEBUG_SLOW` build; the asserted
comparison `>= 0` is on the `u64` member and cannot fail. -/
def Sock__init (P : Posix) (B : Build) (sock : Socket) (addr port : List Nat) (_opts : Nat)
    (o : InitOutcome) : RunInit :=
  let s1 := { sock with addr := memcpy sock.addr (addr ++ [0])
                        port := memcpy sock.port (port ++ [0]) }
  let s2 := if B.DEBUG_SLOW then { s1 with _nix_socket := toU64 o.socket_ret } else s1
  let t2 := (if B.DEBUG_SLOW then [Event.socket] else []) ++ Sock__async s2
  let n := Sock__noNagle B s2 o.setsockopt_ret
  if n.aborted then
    { sock := s2, trace := t2 ++ n.trace, asserted := n.asserted, aborted := true }
  else
    let s3 := { s2 with _nix_addr := { sin_family := P.AF_INET
                                       s_addr := P.INADDR_ANY
                                       sin_port := htons (atoi port) } }
    if o.inet_pton_ret ≠ 1 then
      let c := Sock__close s3
      { sock := c.sock, trace := t2 ++ n.trace ++ c.trace, asserted := n.asserted, aborted := false }
    else
      { sock := { s3 with _nix_addr := { s3._nix_addr with s_addr := o.inet_pton_addr } }
        trace := t2 ++ n.trace, asserted := n.asserted, aborted := false }

/-- The function `Sock__listen`; `bind_ret` and `listen_ret` are what `bind` and `listen`
return if called. -/
def Sock__listen (socket : Socket) (bind_ret listen_ret : Int) : Run :=
  let t1 := [Event.bind socket._nix_socket socket._nix_addr]
  if bind_ret < 0 then
    let c := Sock__close socket
    { sock := c.sock, trace := t1 ++ c.trace }
  else
    let t2 := t1 ++ [Event.listen socket._nix_socket 3]
    if listen_ret < 0 then
      let c := Sock__close socket
      { sock := c.sock, trace := t2 ++ c.trace }
    else
      { sock := socket, trace := t2 }

/-- The function `Sock__connect`; `o` is what `connect` hands back. -/
def Sock__connect (P : Posix) (socket : Socket) (o : SysRet) : Run :=
  let t := [Event.connect socket._nix_socket socket._nix_addr]
  if o.ret = -1 ∧ ¬ o.errno = P.EINPROGRESS then
    let c := Sock__close socket
    { sock := c.sock, trace := t ++ c.trace }
  else
    let s := { socket with state := SocketState.SOCKET_CONNECTED }
    { sock := s, trace := t ++ [Event.onsockconnect s] }

/-- What the platform and the embedder hand back during `Sock__accept`:
`accept` (return value, `errno`, and the peer address it stores through its
second argument when it returns a descriptor), the storage `onsockalloc`
provides, `getpeername` (return value and the address it stores unless it
returns `-1`), `inet_ntop` (the text, or `none` for `NULL`), and `setsockopt`. -/
structure AcceptOutcome where
  accept_ret : Int
  accept_errno : Int
  accept_addr : sockaddr_in
  alloc : Socket
  getpeername_ret : Int
  getpeername_addr : sockaddr_in
  inet_ntop : Option (List Nat)
  setsockopt_ret : Int
  deriving DecidableEq, Repr

/-- Result of `Sock__accept`: the listener, the child storage if
`onsockalloc` was invoked, and what was done. -/
structure RunAccept where
  sock : Socket
  child : Option Socket
  trace : List Event
  asserted : Bool
  aborted : Bool
  deriving DecidableEq, Repr

/-- The text `sprintf(..., "%d", port)` writes, terminator included. -/
def sprintf_d (port : Nat) : List Nat :=
  (Nat.toDigits 10 port).map Char.toNat ++ [0]

/-- The function `Sock__accept`.  `accept` is given `&socket->_nix_addr` of the listener,
so a returned descriptor comes with the peer address stored there. -/
def Sock__accept (P : Posix) (B : Build) (socket : Socket) (o : AcceptOutcome) : RunAccept :=
  if socket.state = SocketState.SOCKET_CLOSED then
    { sock := socket, child := none, trace := [], asserted := false, aborted := false }
  else
    let r := o.accept_ret
    let t1 := [Event.accept socket._nix_socket]
    if r = -1 then
      if o.accept_errno = P.EAGAIN ∨ o.accept_errno = P.EWOULDBLOCK then
        { sock := socket, child := none, trace := t1, asserted := false, aborted := false }
      else
        let c := Sock__close socket
        { sock := c.sock, child := none, trace := t1 ++ c.trace, asserted := false, aborted := false }
    else
      let socket1 := if 0 ≤ r then { socket with _nix_addr := o.accept_addr } else socket
      let c1 := { o.alloc with _nix_socket := toU64 r }
      let t2 := t1 ++ [Event.onsockalloc, Event.getpeername c1._nix_socket]
      if o.getpeername_ret = -1 then
        { sock := socket1, child := some c1, trace := t2, asserted := false, aborted := false }
      else
        let c2 := { c1 with _nix_addr := o.getpeername_addr }
        match o.inet_ntop with
        | none =>
          { sock := socket1, child := some c2, trace := t2, asserted := false, aborted := false }
        | some text =>
          let c3 := { c2 with addr := memcpy c2.addr (text ++ [0]) }
          let port := ntohs c3._nix_addr.sin_port
          let c4 := { c3 with port := memcpy c3.port (sprintf_d port) }
          let t3 := t2 ++ Sock__async c4
          let n := Sock__noNagle B c4 o.setsockopt_ret
          if n.aborted then
            { sock := socket1, child := some c4, trace := t3 ++ n.trace
              asserted := n.asserted, aborted := true }
          else
            let c5 := { c4 with state := SocketState.SOCKET_CONNECTED }
            { sock := socket1, child := some c5
              trace := t3 ++ n.trace ++ [Event.onsockaccept socket1 c5]
              asserted := n.asserted, aborted := false }

/-! ## The alternate native backend (`Sock.c`, `_WIN32`) -/

/-- Constants of `winsock2.h` that `Sock.c` names; a parameter. -/
structure Winsock where
  SOCKET_ERROR : Int
  INVALID_SOCKET : Nat
  WSAEWOULDBLOCK : Int
  deriving DecidableEq, Repr

/-- The values of the `Winsock` constants on Windows. -/
def winsock : Winsock :=
  { SOCKET_ERROR := -1, INVALID_SOCKET := 18446744073709551615, WSAEWOULDBLOCK := 10035 }

namespace Win32

/-- The function `Sock__close` as compiled with `_WIN32`. -/
def Sock__close (W : Winsock) (socket : Socket) : Run :=
  if socket.state = SocketState.SOCKET_CLOSED then
    { sock := socket, trace := [] }
  else
    { sock := { socket with
                  state := SocketState.SOCKET_CLOSED
                  sessionState := SessionState.SESSION_SERVER_HUNGUP
                  _win_socket := W.INVALID_SOCKET }
      trace := [Event.closesocket socket._win_socket] }

/-- The function `Sock__read` as compiled with `_WIN32`; `o` is what `recv`
hands back if it is called (`o.errno` standing for `WSAGetLastError()`).
`FD_ISSET` is asked of the set the handle was put into by `FD_SET` one line
before, with no `select` in between, and is true; what decides is
`socket->_win_socket != INVALID_SOCKET`.  With an invalid handle, and with a
`bytesRead` that is neither positive, `SOCKET_ERROR` nor `0`, control reaches
the final `return -1`. -/
def Sock__read (W : Winsock) (socket : Socket) (len : Nat) (o : ReadOutcome) : RunRet :=
  if len < 1 then
    { sock := socket, trace := [], ret := -1 }
  else if socket.state = SocketState.SOCKET_CLOSED then
    { sock := socket, trace := [], ret := -1 }
  else if socket._win_socket ≠ W.INVALID_SOCKET then
    let bytesRead := o.ret
    let t := [Event.recv socket._win_socket len]
    if bytesRead > 0 then
      { sock := socket
        trace := t ++ [Event.onsockrecv socket (o.buf.take bytesRead.toNat) bytesRead.toNat]
        ret := 1 }
    else if W.SOCKET_ERROR = bytesRead then
      if W.WSAEWOULDBLOCK = o.errno then
        { sock := socket, trace := t, ret := 0 }
      else
        let c := Win32.Sock__close W socket
        { sock := c.sock, trace := t ++ c.trace, ret := -1 }
    else if 0 = bytesRead then
      let c := Win32.Sock__close W socket
      { sock := c.sock, trace := t ++ c.trace, ret := -1 }
    else
      { sock := socket, trace := t, ret := -1 }
  else
    { sock := socket, trace := [], ret := -1 }

/-- The function `Sock__write` as compiled with `_WIN32`; `o` is what `send`
hands back (`o.errno` standing for `WSAGetLastError()`, which is only
logged).  After a failed `send` the socket is closed and control falls
through to the common tail: `onsocksend`, `return 1`. -/
def Sock__write (W : Winsock) (socket : Socket) (buf : List Nat) (len : Nat) (o : SysRet) :
    RunRet :=
  if len < 1 then
    { sock := socket, trace := [], ret := -1 }
  else if socket.state = SocketState.SOCKET_CLOSED then
    { sock := socket, trace := [], ret := -1 }
  else
    let t := [Event.send socket._win_socket buf len]
    let c := if o.ret = W.SOCKET_ERROR then Win32.Sock__close W socket
             else { sock := socket, trace := [] }
    { sock := c.sock, trace := t ++ c.trace ++ [Event.onsocksend c.sock buf len], ret := 1 }

end Win32

/-! ## The bridged backend (`Sock.c`, `__EMSCRIPTEN__`) -/

/-- The event codes `libwebsocket_cb` receives in `callbackFnId`.  The
repository does not define them; the script in `Sock__setup` passes 2 on open,
4 on message, 3 on close, 1 on error and 5 on destroy. -/
structure WsCodes where
  WS_CLIENT_CONNECTION_ERROR : Int
  WS_CLIENT_ESTABLISHED : Int
  WS_CLOSED : Int
  WS_CLIENT_RECEIVE : Int
  WS_WSI_DESTROY : Int
  deriving DecidableEq, Repr

/-- The codes as the script in `Sock__setup` passes them. -/
def wsCodes : WsCodes :=
  { WS_CLIENT_CONNECTION_ERROR := 1, WS_CLIENT_ESTABLISHED := 2, WS_CLOSED := 3
    WS_CLIENT_RECEIVE := 4, WS_WSI_DESTROY := 5 }

namespace Emscripten

/-- The function `Sock__read` as compiled with `__EMSCRIPTEN__`: behind the two
checks there is only a comment (the browser pushes data through
`libwebsocket_cb`), so control reaches the final `return -1`. -/
def Sock__read (socket : Socket) (len : Nat) : RunRet :=
  if len < 1 then
    { sock := socket, trace := [], ret := -1 }
  else if socket.state = SocketState.SOCKET_CLOSED then
    { sock := socket, trace := [], ret := -1 }
  else
    { sock := socket, trace := [], ret := -1 }

/-- The function `libwebsocket_cb(protocol, socket, socketId, callbackFnId,
websocket, data, len)`; `data` is the bytes behind the pointer.  Only two
codes have a branch; the function always returns 0. -/
def libwebsocket_cb (K : WsCodes) (_protocol : Int) (socket : Socket) (_socketId : Int)
    (callbackFnId : Int) (_websocket : Nat) (data : List Nat) (len : Nat) : RunRet :=
  if K.WS_CLIENT_ESTABLISHED = callbackFnId then
    { sock := { socket with
                  state := SocketState.SOCKET_CONNECTED
                  sessionState := SessionState.SESSION_CLIENT_WASM_CONNECT_CB }
      trace := [], ret := 0 }
  else if K.WS_CLIENT_RECEIVE = callbackFnId then
    { sock := socket, trace := [Event.onsockrecv socket data len], ret := 0 }
  else
    { sock := socket, trace := [], ret := 0 }

end Emscripten

/-! ## ByteBuffer (`src/common/ByteBuffer.c`)

The four cursors of a `ByteBuffer` are addresses into one memory; the bytes
live in a `Mem`.  Pointer arithmetic is on addresses without wrap-around;
values of type `u32` (lengths, and the differences `SZ_defrag`, `SZ_readable`
and `SZ_writable` store or return) are reduced modulo `2^32`. -/

/-- Memory: the byte stored at each address. -/
abbrev Mem := Nat → Nat

/-- The `n` bytes stored from address `p` on. -/
def Mem.load (m : Mem) (p n : Nat) : List Nat :=
  (List.range n).map fun i => m (p + i)

/-- The libc `memset(p, c, n)`. -/
def Mem.memset (m : Mem) (p c n : Nat) : Mem :=
  fun a => if p ≤ a ∧ a < p + n then c else m a

/-- The libc `memcpy(dst, src, n)` between addresses: every destination byte
receives the source byte as it was before the call.  C requires the two
regions not to overlap; when the destination lies below the source, as in
`SZ_defrag`, this is also what a copy in ascending order stores. -/
def Mem.memcpy (m : Mem) (dst src n : Nat) : Mem :=
  fun a => if dst ≤ a ∧ a < dst + n then m (src + (a - dst)) else m a

/-- Conversion to `u32`. -/
def toU32 (x : Int) : Nat := (x % 4294967296).toNat

/-- Result of a `ByteBuffer` operation without return value. -/
structure SZRun where
  buf : ByteBuffer
  mem : Mem

/-- Result of a `ByteBuffer` operation returning `s8`. -/
structure SZRet where
  ret : Int
  buf : ByteBuffer
  mem : Mem

/-- Result of `SZ_read`: return value, buffer, and the pointer behind `dst`. -/
structure SZRead where
  ret : Int
  buf : ByteBuffer
  dst : Nat
  deriving DecidableEq, Repr

/-- Result of `SZ_seek`. -/
structure SZSeek where
  ret : Int
  buf : ByteBuffer
  deriving DecidableEq, Repr

/-- Result of `SZ_copy` and `SZ_copyNS`. -/
structure SZCopy where
  ret : Int
  src : ByteBuffer
  dst : ByteBuffer
  mem : Mem

/-- The function `SZ_reset`; the `memset` length is `buf->end - buf->data`
converted to `size_t`. -/
def SZ_reset (m : Mem) (buf : ByteBuffer) : SZRun :=
  { buf := { buf with read := buf.data, write := buf.data }
    mem := Mem.memset m buf.data 0 (toU64 ((buf.end_ : Int) - buf.data)) }

/-- The function `SZ_alloc(arena, buf, sz)`; `p` is the pointer
`Arena__push(arena, sz)` returned. -/
def SZ_alloc (m : Mem) (buf : ByteBuffer) (p : Nat) (sz : Nat) : SZRun :=
  SZ_reset m { buf with data := p, end_ := p + sz }

/-- The function `SZ_wrap(buf, data, len, sz)`. -/
def SZ_wrap (_buf : ByteBuffer) (data len sz : Nat) : ByteBuffer :=
  { data := data, read := data, write := data + len, end_ := data + sz }

/-- The function `SZ_defrag`; `len` and `gap` are `u32`. -/
def SZ_defrag (m : Mem) (buf : ByteBuffer) : SZRun :=
  let len := toU32 ((buf.write : Int) - buf.read)
  if 0 = len then
    { buf := { buf with read := buf.data, write := buf.data }, mem := m }
  else
    let gap := toU32 ((buf.read : Int) - buf.data)
    if 0 = gap then
      { buf := buf, mem := m }
    else
      { buf := { buf with read := buf.data, write := buf.data + len }
        mem := Mem.memcpy m buf.data buf.read len }

/-- The function `SZ_overflow_read`. -/
def SZ_overflow_read (buf : ByteBuffer) (len : Nat) : Bool :=
  buf.read + len > buf.write

/-- The function `SZ_overflow_write`. -/
def SZ_overflow_write (buf : ByteBuffer) (len : Nat) : Bool :=
  buf.write + len > buf.end_

/-- The function `SZ_readable`: `buf->write - buf->read + len` returned as `u32`. -/
def SZ_readable (buf : ByteBuffer) (len : Nat) : Nat :=
  toU32 ((buf.write : Int) - buf.read + len)

/-- The function `SZ_writable`: `buf->end - buf->write + len` returned as `u32`. -/
def SZ_writable (buf : ByteBuffer) (len : Nat) : Nat :=
  toU32 ((buf.end_ : Int) - buf.write + len)

/-- The function `SZ_seek`. -/
def SZ_seek (buf : ByteBuffer) (offset : Nat) : SZSeek :=
  if SZ_overflow_read buf offset then
    { ret := 0, buf := buf }
  else
    { ret := 1, buf := { buf with read := buf.read + offset } }

/-- The function `SZ_read(buf, dst, len)`; `dst` is the pointer stored behind
the out-parameter before the call. -/
def SZ_read (buf : ByteBuffer) (dst : Nat) (len : Nat) : SZRead :=
  if SZ_overflow_read buf len then
    { ret := 0, buf := buf, dst := dst }
  else
    { ret := 1, buf := { buf with read := buf.read + len }, dst := buf.read }

/-- The function `SZ_write(buf, data, len)`; `data` is an address. -/
def SZ_write (m : Mem) (buf : ByteBuffer) (data : Nat) (len : Nat) : SZRet :=
  if SZ_overflow_write buf len then
    { ret := 0, buf := buf, mem := m }
  else
    { ret := 1, buf := { buf with write := buf.write + len }
      mem := Mem.memcpy m buf.write data len }

/-- The function `SZ_copy(src, dst)` on two distinct buffer structs.  The
guard `SZ_writable(dst, len) >= 0` compares a `u32` with 0; the results of
`SZ_write` and `SZ_seek` are not looked at. -/
def SZ_copy (m : Mem) (src dst : ByteBuffer) : SZCopy :=
  let len := SZ_readable src 0
  if len < 1 then
    { ret := 0, src := src, dst := dst, mem := m }
  else if SZ_writable dst len ≥ 0 then
    let w := SZ_write m dst src.read len
    let s := SZ_seek src len
    { ret := 1, src := s.buf, dst := w.buf, mem := w.mem }
  else
    { ret := 0, src := src, dst := dst, mem := m }

/-- The function `SZ_copyNS(src, dst)` on two distinct buffer structs. -/
def SZ_copyNS (m : Mem) (src dst : ByteBuffer) : SZCopy :=
  let len := SZ_readable src 0
  if len < 1 then
    { ret := 0, src := src, dst := dst, mem := m }
  else if SZ_writable dst len ≥ 0 then
    let w := SZ_write m dst src.read len
    { ret := 1, src := src, dst := w.buf, mem := w.mem }
  else
    { ret := 0, src := src, dst := dst, mem := m }

/-- Result of `SZ_read_unsafe`: the pointer returned and the buffer. -/
structure SZPtr where
  ptr : Nat
  buf : ByteBuffer
  deriving DecidableEq, Repr

/-- The function `SZ_read_unsafe(buf, len)`. -/
def SZ_read_unsafe (buf : ByteBuffer) (len : Nat) : SZPtr :=
  { ptr := buf.read, buf := { buf with read := buf.read + len } }

/-- The function `SZ_write_unsafe(buf, data, len)`. -/
def SZ_write_unsafe (m : Mem) (buf : ByteBuffer) (data : Nat) (len : Nat) : SZRet :=
  { ret := 1, buf := { buf with write := buf.write + len }
    mem := Mem.memcpy m buf.write data len }

/-! ## Ring buffer (`src/common/Ring.c`) -/

/-- The struct `RingBuf` of `unity.h` (`u16 head, tail`). -/
structure RingBuf where
  head : Nat
  tail : Nat
  deriving DecidableEq, Repr

/-- The function `Ring__clear`. -/
def Ring__clear (rb : RingBuf) : RingBuf :=
  { rb with head := rb.tail }

/-- The function `Ring__empty`. -/
def Ring__empty (rb : RingBuf) : Bool :=
  rb.head = rb.tail

/-- The function `Ring__full`; `rb->head + 1` is computed in `int` and does
not wrap. -/
def Ring__full (rb : RingBuf) (cap : Nat) : Bool :=
  (rb.head + 1) % cap = rb.tail

/-- The function `Ring__push`: the flag returned and the ring afterwards.  The
value stored is below `cap` and so fits the `u16`. -/
def Ring__push (rb : RingBuf) (cap : Nat) : Bool × RingBuf :=
  if Ring__full rb cap then
    (false, rb)
  else
    (true, { rb with head := (rb.head + 1) % cap })

/-- The function `Ring__pop`: the flag returned and the ring afterwards. -/
def Ring__pop (rb : RingBuf) (cap : Nat) : Bool × RingBuf :=
  if Ring__empty rb then
    (false, rb)
  else
    (true, { rb with tail := (rb.tail + 1) % cap })

/-- The function `Ring__at`. -/
def Ring__at (rb : RingBuf) (offset cap : Nat) : Nat :=
  (rb.tail + offset) % cap

/-- The number of stored items, `(head - tail) mod cap`. -/
def Ring__count (rb : RingBuf) (cap : Nat) : Nat :=
  (rb.head + cap - rb.tail) % cap

/-- The ring after `n` consecutive calls of `Ring__push`. -/
def Ring__pushes : Nat → RingBuf → Nat → RingBuf
  | 0, rb, _ => rb
  | n + 1, rb, cap => Ring__pushes n (Ring__push rb cap).2 cap

/-- The cursor invariant `data <= read <= write <= end`. -/
def ByteBuffer.inv (b : ByteBuffer) : Prop :=
  b.data ≤ b.read ∧ b.read ≤ b.write ∧ b.write ≤ b.end_

/-- What an operation must keep of a buffer: `data` and `end` as they were,
and the cursor invariant. -/
def ByteBuffer.kept (old new : ByteBuffer) : Prop :=
  new.data = old.data ∧ new.end_ = old.end_ ∧ new.inv

instance (b : ByteBuffer) : Decidable b.inv := by
  unfold ByteBuffer.inv
  infer_instance

/-- The struct `List__Node` of `GENERIC_LIST(List, void*)`. -/
structure List__Node where
  next : Nat
  data : Nat
  deriving DecidableEq, Repr

/-- The struct `List` of `GENERIC_LIST(List, void*)` (`u32 len`, `head`,
`tail`); the name `List` is taken in Lean. -/
structure List_t where
  len : Nat
  head : Nat
  tail : Nat
  deriving DecidableEq, Repr

/-- The nodes in memory: the node stored at each address. -/
abbrev NodeHeap := Nat → List__Node

/-- Stores a node at an address. -/
def NodeHeap.set (h : NodeHeap) (p : Nat) (n : List__Node) : NodeHeap :=
  fun a => if a = p then n else h a

/-- Result of a list operation: the heap and the list struct afterwards. -/
structure ListRun where
  heap : NodeHeap
  list : List_t

/-- The comparator type `List__sorter_t`: `-1` for a<b, `0` for a==b, `+1` for
a>b, on the two `data` pointers. -/
abbrev List__sorter_t := Nat → Nat → Int

/-- The `while` loop of `List__insort`: starting at `c`, advances while there
is a next node and `sortCb(node->data, c->next->data) == -1`; gives the node
it stops at, or nothing if `fuel` steps were not enough. -/
def List__insort_loop (sortCb : List__sorter_t) (h : NodeHeap) (node : Nat) :
    Nat → Nat → Option Nat
  | 0, _ => none
  | fuel + 1, c =>
    if (h c).next ≠ 0 ∧ sortCb (h node).data (h (h c).next).data = -1 then
      List__insort_loop sortCb h node fuel (h c).next
    else
      some c

/-- The function `List__insort(arena, list, data, sortCb)`; `node` is the
address `Arena__push` returned, `fuel` bounds the steps of the loop. -/
def List__insort (fuel : Nat) (h : NodeHeap) (list : List_t) (node : Nat) (data : Nat)
    (sortCb : List__sorter_t) : Option ListRun :=
  let h1 := h.set node { next := 0, data := data }
  if list.head = 0 then
    some { heap := h1
           list := { head := node, tail := node, len := toU32 (list.len + 1) } }
  else
    match List__insort_loop sortCb h1 node fuel list.head with
    | none => none
    | some c =>
      let h2 := h1.set node { h1 node with next := (h1 c).next }
      let h3 := h2.set c { h2 c with next := node }
      some { heap := h3
             list := { head := list.head
                       tail := if list.tail = c then node else list.tail
                       len := toU32 (list.len + 1) } }

/-- Result of a list operation that returns a `void*`, or a flag as 0/1. -/
structure ListRet where
  ret : Nat
  heap : NodeHeap
  list : List_t

/-- The function `List__reset`. -/
def List__reset (list : List_t) : List_t :=
  { list with len := 0, head := 0 }

/-- The function `List__shift`; nothing is returned when a `NULL` pointer is
dereferenced. -/
def List__shift (h : NodeHeap) (list : List_t) : Option ListRet :=
  let c := list.head
  if 0 = list.len then
    some { ret := 0, heap := h, list := list }
  else if 1 = list.len then
    if c = 0 then none
    else some { ret := (h c).data, heap := h, list := { head := 0, tail := 0, len := 0 } }
  else
    if c = 0 then none
    else some { ret := (h c).data, heap := h
                list := { list with head := (h c).next, len := toU32 ((list.len : Int) - 1) } }

/-- The function `List__prepend(arena, list, data)`; `node` is the address
`Arena__push` returned. -/
def List__prepend (h : NodeHeap) (list : List_t) (node : Nat) (data : Nat) : ListRun :=
  let h1 := h.set node { next := 0, data := data }
  if 0 = list.len then
    { heap := h1, list := { head := node, tail := node, len := toU32 (list.len + 1) } }
  else
    { heap := h1.set node { h1 node with next := list.head }
      list := { list with head := node, len := toU32 (list.len + 1) } }

/-- The function `List__append(arena, list, data)`; `node` is the address
`Arena__push` returned. -/
def List__append (h : NodeHeap) (list : List_t) (node : Nat) (data : Nat) : Option ListRun :=
  let h1 := h.set node { next := 0, data := data }
  if 0 = list.len then
    some { heap := h1, list := { head := node, tail := node, len := toU32 (list.len + 1) } }
  else if list.tail = 0 then none
  else
    some { heap := h1.set list.tail { h1 list.tail with next := node }
           list := { list with tail := node, len := toU32 (list.len + 1) } }

/-- The loop of `List__get`: `index` steps along `next` from `c`. -/
def List__get_loop (h : NodeHeap) : Nat → Nat → Option Nat
  | 0, c => some c
  | i + 1, c => if c = 0 then none else List__get_loop h i (h c).next

/-- The function `List__get`: the pointer returned. -/
def List__get (h : NodeHeap) (list : List_t) (index : Nat) : Option Nat :=
  if index ≥ list.len then some 0
  else
    match List__get_loop h index list.head with
    | none => none
    | some c => if c = 0 then none else some (h c).data

/-- The loop of `List__remove_item`, with `n` rounds left, at node `c`. -/
def List__remove_item_loop (h : NodeHeap) (list : List_t) (data : Nat) :
    Nat → Nat → Option ListRet
  | 0, _ => some { ret := 0, heap := h, list := list }
  | n + 1, c =>
    if c = 0 then none
    else if (h c).next = 0 then none
    else if (h (h c).next).data = data then
      let h1 := h.set c { h c with next := (h (h c).next).next }
      let list1 := { list with len := toU32 ((list.len : Int) - 1) }
      some { ret := 1, heap := h1
             list := if (h1 c).next = 0 then { list1 with tail := c } else list1 }
    else
      List__remove_item_loop h list data n (h c).next

/-- The function `List__remove_item`: 1 for true, 0 for false; nothing when a
`NULL` pointer is dereferenced. -/
def List__remove_item (h : NodeHeap) (list : List_t) (data : Nat) : Option ListRet :=
  let c := list.head
  if c = 0 then none
  else if (h c).data = data then
    some { ret := 1, heap := h
           list := { list with head := (h c).next, len := toU32 ((list.len : Int) - 1) } }
  else
    List__remove_item_loop h list data list.len c

/-- The loop of `List__pop` with `n` rounds left, in round `i`, at node `c`
with `prev` behind it. -/
def List__pop_loop (h : NodeHeap) (list : List_t) : Nat → Nat → Nat → Nat → Option ListRet
  | 0, _, _, _ => some { ret := 0, heap := h, list := list }
  | n + 1, i, prev, c =>
    if i = toU32 ((list.len : Int) - 1) then
      if prev = 0 then none
      else if c = 0 then none
      else
        let h1 := h.set prev { h prev with next := 0 }
        some { ret := (h1 c).data, heap := h1
               list := { list with tail := prev, len := toU32 ((list.len : Int) - 1) } }
    else if c = 0 then none
    else List__pop_loop h list n (i + 1) c (h c).next

/-- The function `List__pop`; the local `prev` starts without a value, taken
as 0. -/
def List__pop (h : NodeHeap) (list : List_t) : Option ListRet :=
  let c := list.head
  if 0 = list.len then
    some { ret := 0, heap := h, list := list }
  else if 1 = list.len then
    if c = 0 then none
    else some { ret := (h c).data, heap := h, list := { head := 0, tail := 0, len := 0 } }
  else
    List__pop_loop h list list.len 0 0 c

/-- A chain of nodes: from pointer `p` the `next` pointers lead through the
nodes at the addresses `ps`, none of them `NULL`, and on to `q`. -/
def NodeHeap.seg (h : NodeHeap) : Nat → List Nat → Nat → Prop
  | p, [], q => p = q
  | p, a :: as, q => p = a ∧ a ≠ 0 ∧ NodeHeap.seg h (h a).next as q

/-- A well-formed list whose nodes are at the addresses `ps`: `head` leads
through `ps` to `NULL` (so `head` is `NULL` iff there is no node), `len` is
the number of nodes, and `tail` is the last node if there is one. -/
def List_t.wf (h : NodeHeap) (list : List_t) (ps : List Nat) : Prop :=
  NodeHeap.seg h list.head ps 0 ∧ list.len = ps.length ∧
  ∀ init last, ps = init ++ [last] → list.tail = last

/-- The sequence a list stands for: the `data` of its nodes in order. -/
def NodeHeap.values (h : NodeHeap) (ps : List Nat) : List Nat :=
  ps.map fun p => (h p).data

/-- The `data` values met walking `next` pointers from `p` to `NULL`, at most
`fuel` nodes. -/
def List__walk (h : NodeHeap) : Nat → Nat → List Nat
  | 0, _ => []
  | fuel + 1, p => if p = 0 then [] else (h p).data :: List__walk h fuel (h p).next

/-- A comparator on the pointer values themselves. -/
def cmpNat : List__sorter_t :=
  fun a b => if a < b then -1 else if a = b then 0 else 1

/-- A heap holding the list 5, 3, 1 in nodes at 10, 20 and 30. -/
def heap531 : NodeHeap :=
  fun a =>
    if a = 10 then { next := 20, data := 5 }
    else if a = 20 then { next := 30, data := 3 }
    else if a = 30 then { next := 0, data := 1 }
    else { next := 0, data := 0 }

/-- The list struct for `heap531`. -/
def list531 : List_t :=
  { len := 3, head := 10, tail := 30 }

/-! ## JSON tokenizer (`src/common/Json.c`)

The document and every other string live in a `Mem`; `char*` values are
addresses.  The `f64` member of the `token_value` union is not modelled, only
how many characters `strtod` consumed; `strtod` itself is a parameter.
`_Json__errorf` only prints and is left out. -/

/-- The enum `JsonTok` of `unity.h`. -/
inductive JsonTok where
  | JSON_INVALID
  | JSON_EOF
  | JSON_OCURLY
  | JSON_CCURLY
  | JSON_OBRACKET
  | JSON_CBRACKET
  | JSON_COMMA
  | JSON_COLON
  | JSON_TRUE
  | JSON_FALSE
  | JSON_NULL
  | JSON_STRING
  | JSON_NUMBER
  | JSON_BOOL
  | JSON_COUNT
  deriving DecidableEq, Repr

/-- The struct `Str8` of `unity.h`; the member `mut` is spelled `mut_`, `life`
is the value of the `Str8Lifetime` enum. -/
structure Str8 where
  str : Nat
  len : Nat
  slice : Bool
  mut_ : Bool
  life : Nat
  deriving DecidableEq, Repr

/-- The `str` member of the union `token_value` of `Json`. -/
structure JsonValue where
  str : Str8
  deriving DecidableEq, Repr

/-- The struct `Json` of `unity.h`. -/
structure Json where
  data : Str8
  cur : Nat
  token : JsonTok
  token_value : JsonValue
  file_path : Nat
  token_start : Nat
  deriving DecidableEq, Repr

/-- How many characters `strtod` consumes from the string at an address
(`endptr` minus the start); 0 when it converts nothing. -/
abbrev Strtod := Mem → Nat → Nat

/-- The table `_JSON_PUNCTS`, indexed by a byte. -/
def _JSON_PUNCTS (c : Nat) : JsonTok :=
  if c = 123 then JsonTok.JSON_OCURLY
  else if c = 125 then JsonTok.JSON_CCURLY
  else if c = 91 then JsonTok.JSON_OBRACKET
  else if c = 93 then JsonTok.JSON_CBRACKET
  else if c = 44 then JsonTok.JSON_COMMA
  else if c = 58 then JsonTok.JSON_COLON
  else JsonTok.JSON_INVALID

/-- The table `_JSON__SYMBOLS_IN`: "true", "false", "null". -/
def _JSON__SYMBOLS_IN : List (JsonTok × List Nat) :=
  [(JsonTok.JSON_TRUE, [116, 114, 117, 101]),
   (JsonTok.JSON_FALSE, [102, 97, 108, 115, 101]),
   (JsonTok.JSON_NULL, [110, 117, 108, 108])]

/-- The loop of `_Json__skip_whitespace`, at most `fuel` steps. -/
def _Json__skip_whitespace_loop (m : Mem) : Nat → Json → Json
  | 0, json => json
  | fuel + 1, json =>
    if json.cur < json.data.len ∧ isspace (m (json.data.str + json.cur)) = true then
      _Json__skip_whitespace_loop m fuel { json with cur := json.cur + 1 }
    else
      json

/-- The function `_Json__skip_whitespace`; the loop ends within
`data.len - cur` steps. -/
def _Json__skip_whitespace (m : Mem) (json : Json) : Json :=
  _Json__skip_whitespace_loop m (json.data.len - json.cur) json

/-- The loop `while (0 != *symbol && cur < len && *symbol++ == str[cur++]);`
of `_Json__next_token`: gives what is left of the symbol behind the pointer,
and the cursor.  Both are advanced by a comparison, also by the one that
fails. -/
def _Json__match_symbol (m : Mem) (str len : Nat) : List Nat → Nat → List Nat × Nat
  | [], cur => ([], cur)
  | c :: symbol, cur =>
    if cur < len then
      if c = m (str + cur) then _Json__match_symbol m str len symbol (cur + 1)
      else (symbol, cur + 1)
    else
      (c :: symbol, cur)

/-- The `for` loop over `_JSON__SYMBOLS_IN` in `_Json__next_token`: the result
for the first symbol whose first character is the current one, or nothing if
there is none. -/
def _Json__next_token_symbols (m : Mem) (json : Json) :
    List (JsonTok × List Nat) → Option (Bool × Json)
  | [] => none
  | (token, symbol) :: rest =>
    if symbol.headD 0 = m (json.data.str + json.cur) then
      let r := _Json__match_symbol m json.data.str json.data.len symbol json.cur
      if r.1 ≠ [] then
        some (false, { json with cur := r.2, token := JsonTok.JSON_INVALID })
      else
        some (true, { json with cur := r.2, token := token })
    else
      _Json__next_token_symbols m json rest

/-- The loop that scans a string up to the closing quote in
`_Json__next_token`, at most `fuel` steps; `str.len` is a `u16`. -/
def _Json__next_token_string (m : Mem) : Nat → Json → Bool × Json
  | 0, json => (false, { json with token := JsonTok.JSON_INVALID })
  | fuel + 1, json =>
    if json.cur < json.data.len then
      if m (json.data.str + json.cur) ≠ 34 then
        _Json__next_token_string m fuel
          { json with
              cur := json.cur + 1
              token_value :=
                { str := { json.token_value.str with
                             len := (json.token_value.str.len + 1) % 65536 } } }
      else
        (true, { json with cur := json.cur + 1, token := JsonTok.JSON_STRING })
    else
      (false, { json with token := JsonTok.JSON_INVALID })

/-- The function `_Json__next_token`. -/
def _Json__next_token (strtod : Strtod) (m : Mem) (json0 : Json) : Bool × Json :=
  let json1 := _Json__skip_whitespace m json0
  let json := { json1 with token_start := json1.cur }
  if json.cur ≥ json.data.len then
    (false, { json with token := JsonTok.JSON_EOF })
  else
    let token := _JSON_PUNCTS (m (json.data.str + json.cur) % 256)
    if token ≠ JsonTok.JSON_INVALID then
      (true, { json with token := token, cur := json.cur + 1 })
    else
      let json := { json with token := token }
      match _Json__next_token_symbols m json _JSON__SYMBOLS_IN with
      | some r => r
      | none =>
        let n := strtod m (json.data.str + json.cur)
        if n ≠ 0 then
          (true, { json with cur := json.cur + n, token := JsonTok.JSON_NUMBER })
        else if m (json.data.str + json.cur) = 34 then
          _Json__next_token_string m (json.data.len - json.cur)
            { json with
                cur := json.cur + 1
                token_value :=
                  { str := { str := json.data.str + (json.cur + 1), len := 0
                             life := json.data.life, mut_ := json.data.mut_
                             slice := true } } }
        else
          (false, { json with token := JsonTok.JSON_INVALID })

/-- The function `_Json__expect_token`. -/
def _Json__expect_token (json : Json) (token : JsonTok) : Bool :=
  if json.token ≠ token then false else true

/-- The function `_Json__expect_next_token`. -/
def _Json__expect_next_token (strtod : Strtod) (m : Mem) (json : Json) (token : JsonTok) :
    Bool × Json :=
  let r := _Json__next_token strtod m json
  if !r.1 then (false, r.2) else (_Json__expect_token r.2 token, r.2)

/-- Result of a function with a `Str8*` out-parameter. -/
structure JsonStr where
  ret : Bool
  json : Json
  str : Str8
  deriving DecidableEq, Repr

/-- The function `Json__string(json, str)`; `str` is the value behind the
out-parameter before the call. -/
def Json__string (strtod : Strtod) (m : Mem) (json : Json) (str : Str8) : JsonStr :=
  let r := _Json__expect_next_token strtod m json JsonTok.JSON_STRING
  if !r.1 then { ret := false, json := r.2, str := str }
  else { ret := true, json := r.2, str := r.2.token_value.str }

/-- The function `Json__object_key(json, str)`. -/
def Json__object_key (strtod : Strtod) (m : Mem) (json : Json) (str : Str8) : JsonStr :=
  let cur := json.cur
  let r := _Json__next_token strtod m json
  if !r.1 then
    { ret := false, json := r.2, str := str }
  else if r.2.token = JsonTok.JSON_COMMA then
    let s := Json__string strtod m r.2 str
    if !s.ret then
      { ret := false, json := s.json, str := s.str }
    else
      let c := _Json__expect_next_token strtod m s.json JsonTok.JSON_COLON
      { ret := c.1, json := c.2, str := s.str }
  else if r.2.token = JsonTok.JSON_CCURLY then
    { ret := false, json := { r.2 with cur := cur }, str := str }
  else if !_Json__expect_token r.2 JsonTok.JSON_STRING then
    { ret := false, json := r.2, str := str }
  else
    let c := _Json__expect_next_token strtod m r.2 JsonTok.JSON_COLON
    { ret := c.1, json := c.2, str := r.2.token_value.str }

/-- The libc `strncmp(a, b, n)` on two strings in memory: 0 if the first `n`
characters, or the characters up to and including a terminator, are the
same. -/
def strncmp (m : Mem) : Nat → Nat → Nat → Int
  | _, _, 0 => 0
  | a, b, n + 1 =>
    if m a ≠ m b then (m a : Int) - (m b : Int)
    else if m a = 0 then 0
    else strncmp m (a + 1) (b + 1) n

/-- The function `cstr__eq(len, a, b)` of `String.c`. -/
def cstr__eq (m : Mem) (len a b : Nat) : Bool :=
  0 = strncmp m a b len

/-- The function `Json__object_key_is(json, len, expected)`: `key` starts as
`{0}`, and `cstr__eq` is evaluated only if `Json__object_key` returned true. -/
def Json__object_key_is (strtod : Strtod) (m : Mem) (json : Json) (len : Nat) (expected : Nat) :
    Bool × Json :=
  let key : Str8 := { str := 0, len := 0, slice := false, mut_ := false, life := 0 }
  let k := Json__object_key strtod m json key
  (k.ret && cstr__eq m len expected k.str.str, k.json)

/-- The digits at the start of the string at `p`, counted, at most `fuel`. -/
def countDigits (m : Mem) : Nat → Nat → Nat
  | 0, _ => 0
  | fuel + 1, p => if isdigit (m p) = true then countDigits m fuel (p + 1) + 1 else 0

/-- A stand-in for `strtod` on decimal numbers: an optional sign, digits with
an optional fraction, an optional exponent; it consumes nothing when no digit
is found.  (The `strtod` of libc also reads hexadecimal numbers, "inf" and
"nan".) -/
def strtod_dec : Strtod := fun m p =>
  let s := if m p = 43 ∨ m p = 45 then 1 else 0
  let i := countDigits m 65536 (p + s)
  let f := if m (p + s + i) = 46 then countDigits m 65536 (p + s + i + 1) else 0
  let dot := if m (p + s + i) = 46 ∧ (0 < i ∨ 0 < f) then 1 + f else 0
  if i = 0 ∧ dot = 0 then 0
  else
    let q := p + s + i + dot
    let es := if m (q + 1) = 43 ∨ m (q + 1) = 45 then 1 else 0
    let e := if m q = 101 ∨ m q = 69 then countDigits m 65536 (q + 1 + es) else 0
    s + i + dot + (if 0 < e then 1 + es + e else 0)

/-- A memory holding the document `{"names":1}` at address 1000 and the string
"name" at address 2000. -/
def memNames : Mem :=
  fun a =>
    if a < 2000 then
      ([123, 34, 110, 97, 109, 101, 115, 34, 58, 49, 125] : List Nat).getD (a - 1000) 0
    else ([110, 97, 109, 101] : List Nat).getD (a - 2000) 0

/-- A parser on the 11 characters at address 1000, the opening brace already
consumed. -/
def jsonNames : Json :=
  { data := { str := 1000, len := 11, slice := false, mut_ := false, life := 0 }
    cur := 1, token := JsonTok.JSON_OCURLY
    token_value := { str := { str := 0, len := 0, slice := false, mut_ := false, life := 0 } }
    file_path := 0, token_start := 0 }

/-- The function `Json__array_begin`. -/
def Json__array_begin (strtod : Strtod) (m : Mem) (json : Json) : Bool × Json :=
  _Json__expect_next_token strtod m json JsonTok.JSON_OBRACKET

/-- The function `Json__array_item`. -/
def Json__array_item (strtod : Strtod) (m : Mem) (json : Json) : Bool × Json :=
  let cur := json.cur
  let r := _Json__next_token strtod m json
  if !r.1 then (false, r.2)
  else if r.2.token = JsonTok.JSON_COMMA then (true, r.2)
  else if r.2.token = JsonTok.JSON_CBRACKET then (false, { r.2 with cur := cur })
  else (true, { r.2 with cur := cur })

/-- The function `Json__array_end`. -/
def Json__array_end (strtod : Strtod) (m : Mem) (json : Json) : Bool × Json :=
  _Json__expect_next_token strtod m json JsonTok.JSON_CBRACKET

/-- The function `Json__object_begin`. -/
def Json__object_begin (strtod : Strtod) (m : Mem) (json : Json) : Bool × Json :=
  _Json__expect_next_token strtod m json JsonTok.JSON_OCURLY

/-- The function `Json__object_end`. -/
def Json__object_end (strtod : Strtod) (m : Mem) (json : Json) : Bool × Json :=
  _Json__expect_next_token strtod m json JsonTok.JSON_CCURLY

/-- The character the next token starts with: `c` stands in the document at
the cursor once white space is skipped. -/
def Json.nextChar (m : Mem) (json : Json) (c : Nat) : Prop :=
  (_Json__skip_whitespace m json).cur < json.data.len ∧
  m (json.data.str + (_Json__skip_whitespace m json).cur) = c

/-! ## Timers (`src/common/Timer.c`)

The type `Timer`, the constant `TIMER_PAUSE_MASK` and the clock `_G->now` are
used by `Timer.c` and declared nowhere in the sources.  The mask and the clock
are parameters; a `Timer` is taken to be a `u32`, as the locals it is copied
to and from are (`u32 ms = t ^ TIMER_PAUSE_MASK`, `*t = adjusted`). -/

/-- The two values `Timer.c` reads from outside. -/
structure TimerEnv where
  TIMER_PAUSE_MASK : Nat
  now : Nat
  deriving DecidableEq, Repr

/-- The function `T_paused`. -/
def T_paused (E : TimerEnv) (t : Nat) : Bool :=
  E.TIMER_PAUSE_MASK = (t &&& E.TIMER_PAUSE_MASK)

/-- The function `T_cancel`: the value stored in `*t`. -/
def T_cancel (_t : Nat) : Nat := 0

/-- The function `T_canceled`. -/
def T_canceled (t : Nat) : Bool := 0 = t

/-- The function `T_began`. -/
def T_began (t : Nat) : Bool := !T_canceled t

/-- The function `T_complete`: the value stored in `*t`. -/
def T_complete (_t : Nat) : Nat := 2

/-- The function `T_ended`; `t + duration` is `u32` arithmetic. -/
def T_ended (E : TimerEnv) (t duration : Nat) : Bool :=
  !T_paused E t && (t + duration) % 4294967296 < E.now

/-- The function `T_completed`. -/
def T_completed (E : TimerEnv) (t duration : Nat) : Bool :=
  T_ended E t duration && !T_canceled t

/-- The function `T_rdy`. -/
def T_rdy (E : TimerEnv) (t duration : Nat) : Bool :=
  T_canceled t || T_ended E t duration

/-- The function `T_busy`. -/
def T_busy (E : TimerEnv) (t duration : Nat) : Bool :=
  !T_rdy E t duration

/-! ## Threads (`src/common/Thread.c`) -/

/-- The function `Thread__Mutex_create` as compiled with `__linux__`;
the argument is what `pthread_mutex_init` returned. -/
def Thread__Mutex_create (pthread_mutex_init_ret : Int) : Bool :=
  0 ≠ pthread_mutex_init_ret

/-- The function `Thread__create` as compiled with `__linux__`; the argument
is what `pthread_create` returned. -/
def Thread__create (pthread_create_ret : Int) : Bool :=
  0 = pthread_create_ret

namespace Win32

/-- The function `Thread__Mutex_create` as compiled with `_WIN32`; the
argument is the handle `CreateMutex` returned (0 for `NULL`). -/
def Thread__Mutex_create (CreateMutex_ret : Nat) : Bool :=
  CreateMutex_ret ≠ 0

/-- The function `Thread__create` as compiled with `_WIN32`; the argument is
the handle `CreateThread` returned. -/
def Thread__create (CreateThread_ret : Nat) : Bool :=
  0 ≠ CreateThread_ret

end Win32

/-! ## Strings (`src/common/String.c`) -/

/-- Conversion to `u16`. -/
def toU16 (x : Int) : Nat := (x % 65536).toNat

/-- The function `Str8__cstrlen`: the index of the first NUL, searched for
within `fuel` characters. -/
def Str8__cstrlen (m : Mem) (c : Nat) : Nat → Nat → Option Nat
  | 0, _ => none
  | fuel + 1, i => if 0 ≠ m (c + i) then Str8__cstrlen m c fuel (i + 1) else some i

/-- The function `Str8__init`; the `u64` length is stored in the `u16`. -/
def Str8__init (fuel : Nat) (m : Mem) (s : Str8) : Option Str8 :=
  if 0 = s.len ∧ s.slice = false then
    match Str8__cstrlen m s.str fuel 0 with
    | none => none
    | some n => some { s with len := n % 65536 }
  else
    some s

/-- The function `STR8_INHERIT_NULL`: the value stored in `dst->slice`. -/
def STR8_INHERIT_NULL (m : Mem) (s : Str8) (end_ : Nat) : Bool :=
  if s.slice = false ∧ end_ = s.len ∧ 0 = m (s.str + s.len) then false else true

/-- The function `Str8__sliceOf`. -/
def Str8__sliceOf (dst src : Str8) : Str8 :=
  { dst with slice := true, mut_ := src.mut_, life := src.life }

/-- The loop of `Str8__filename`, from `i` down to 1: the value of `begin`
when it ends (`u16`), reading `s->str[i]`. -/
def Str8__filename_loop (m : Mem) (s : Str8) : Nat → Nat
  | 0 => 0
  | i + 1 =>
    if m (s.str + (i + 1)) = 47 ∨ m (s.str + (i + 1)) = 92 then (i + 1 + 1) % 65536
    else Str8__filename_loop m s i

/-- The function `Str8__filename(dst, s)`: the two structs afterwards. -/
def Str8__filename (fuel : Nat) (m : Mem) (dst s0 : Str8) : Option (Str8 × Str8) :=
  match Str8__init fuel m s0 with
  | none => none
  | some s =>
    let dst1 := Str8__sliceOf dst s
    let end_ := s.len
    let begin := Str8__filename_loop m s s.len
    let dst2 := { dst1 with str := s.str + begin, len := toU16 ((end_ : Int) - begin) }
    some ({ dst2 with slice := STR8_INHERIT_NULL m s end_ }, s)

/-- The conversion `(f64)bytes` of a `u64`: exact below `2^53`, otherwise
rounded to 53 significant bits, ties to even.  The result is a whole number. -/
def u64_to_f64 (n : Nat) : Nat :=
  if n < 9007199254740992 then n
  else
    let e := ((List.range 11).filter fun k => 2 ^ (53 + k) ≤ n).length
    let q := n / 2 ^ e
    let r := n % 2 ^ e
    let half := 2 ^ (e - 1)
    (if r > half ∨ (r = half ∧ q % 2 = 1) then q + 1 else q) * 2 ^ e

/-- The state of the loop of `_format_bytes`: the `f64` `value` as the exact
fraction `num / den` (a division of a double by 1024 is exact), and `idx`. -/
structure FormatBytes where
  num : Nat
  den : Nat
  idx : Nat
  deriving DecidableEq, Repr

/-- The number of entries of `units` in `_format_bytes`, `ARRAYSIZE(units)`. -/
def format_bytes_units : Nat := 6

/-- The loop `while (value >= 1024 && idx < ARRAYSIZE(units))` of
`_format_bytes`, at most `fuel` rounds; `idx` is a `u8`. -/
def _format_bytes_loop : Nat → FormatBytes → FormatBytes
  | 0, s => s
  | fuel + 1, s =>
    if s.num ≥ 1024 * s.den ∧ s.idx < format_bytes_units then
      _format_bytes_loop fuel { num := s.num, den := s.den * 1024, idx := (s.idx + 1) % 256 }
    else
      s

/-- The function `_format_bytes` up to the call of `snprintf`: the value and
the index with which `units[idx]` is read.  The loop ends within 7 rounds. -/
def _format_bytes (bytes : Nat) : FormatBytes :=
  _format_bytes_loop 7 { num := u64_to_f64 bytes, den := 1, idx := 0 }

/-- A memory holding the string "/foo" at address 1000 and "foo/bar" at
address 2000, each followed by NUL. -/
def memPaths : Mem :=
  fun a =>
    if a < 2000 then ([47, 102, 111, 111] : List Nat).getD (a - 1000) 0
    else ([102, 111, 111, 47, 98, 97, 114] : List Nat).getD (a - 2000) 0

/-- A memory holding the document `trux` at address 1000 and `nul?` at 2000. -/
def memTrux : Mem :=
  fun a =>
    if a < 2000 then ([116, 114, 117, 120] : List Nat).getD (a - 1000) 0
    else ([110, 117, 108, 63] : List Nat).getD (a - 2000) 0

/-- A parser at the start of the 4 characters at address `p`. -/
def jsonAt (p : Nat) : Json :=
  { data := { str := p, len := 4, slice := false, mut_ := false, life := 0 }
    cur := 0, token := JsonTok.JSON_INVALID
    token_value := { str := { str := 0, len := 0, slice := false, mut_ := false, life := 0 } }
    file_path := 0, token_start := 0 }

/-- A memory holding the 7 characters `[7, 8 ]` at address 1000 and the 3
characters `{ }` at address 2000. -/
def memDocs : Mem :=
  fun a =>
    if a < 2000 then ([91, 55, 44, 32, 56, 32, 93] : List Nat).getD (a - 1000) 0
    else ([123, 32, 125] : List Nat).getD (a - 2000) 0

/-- A parser on the `len` characters at address `p`, its cursor at `cur`. -/
def jsonDoc (p len cur : Nat) : Json :=
  { data := { str := p, len := len, slice := false, mut_ := false, life := 0 }
    cur := cur, token := JsonTok.JSON_INVALID
    token_value := { str := { str := 0, len := 0, slice := false, mut_ := false, life := 0 } }
    file_path := 0, token_start := 0 }

/-- A heap of nodes that all hold `NULL` as their `data` and have no next
node. -/
def heapNull : NodeHeap :=
  fun _ => { next := 0, data := 0 }

/-- A heap holding a chain of `2^32 - 1` nodes at the addresses 1 to
`2^32 - 1`. -/
def heapChain : NodeHeap :=
  fun a => { next := if a < 4294967295 then a + 1 else 0, data := 1 }

/-- The list struct for `heapChain`. -/
def listChain : List_t :=
  { len := 4294967295, head := 1, tail := 4294967295 }

/-- A memory holding "PING" at address 1000 and "PONG" at address 1004. -/
def pingPong : Mem :=
  fun a => ([80, 73, 78, 71, 80, 79, 78, 71] : List Nat).getD (a - 1000) 0

/-- A buffer of capacity 16 at address 100, as `SZ_alloc` leaves it. -/
def buf16 : SZRun :=
  SZ_alloc pingPong { data := 0, read := 0, write := 0, end_ := 0 } 100 16

/-- A socket as the embedder's zeroed storage provides it. -/
def Socket.zero : Socket :=
  { addr := [], port := [], opts := 0, _nix_socket := 0
    _nix_addr := { sin_family := 0, sin_port := 0, s_addr := 0 }
    _win_socket := 0, _win_addr := 0, _web_socket := 0
    message := { data := 0, read := 0, write := 0, end_ := 0 }
    readBuf := { data := 0, read := 0, write := 0, end_ := 0 }
    writeBuf := { data := 0, read := 0, write := 0, end_ := 0 }
    state := SocketState.SOCKET_NONE, sessionState := SessionState.SESSION_NONE
    connectedAt := 0, ping := 0, ts := 0, rate := 0, cl_updaterate := 0, cl_interp := 0
    lastPacket := 0, lastSnapshot := 0, userdata := 0 }

/-- The lengths passed to `onsocksend`, in order of invocation. -/
def onsocksend_lens : List Event → List Nat
  | [] => []
  | Event.onsocksend _ _ len :: es => len :: onsocksend_lens es
  | _ :: es => onsocksend_lens es

/-- A listening socket as the server flow leaves it: descriptor 3, bound to
127.0.0.1:9000, state still `SOCKET_NONE`. -/
def listener3 : Socket :=
  { Socket.zero with
      addr := [49, 50, 55, 46, 48, 46, 48, 46, 49, 0]
      port := [57, 48, 48, 48, 0]
      _nix_socket := 3
      _nix_addr := { sin_family := 2, sin_port := 10275, s_addr := 16777343 } }

/-- A connected socket on descriptor 5. -/
def client5 : Socket :=
  { Socket.zero with _nix_socket := 5, state := SocketState.SOCKET_CONNECTED }

/-- A connected socket whose Linux and Windows handles are both 5. -/
def client5w : Socket :=
  { client5 with _win_socket := 5 }

/-- A socket that `Sock__close` has closed. -/
def closed0 : Socket :=
  (Sock__close client5).sock

/-- An `accept` that found nothing pending. -/
def acceptWouldBlock : AcceptOutcome :=
  { accept_ret := -1, accept_errno := 11
    accept_addr := { sin_family := 0, sin_port := 0, s_addr := 0 }
    alloc := Socket.zero, getpeername_ret := 0
    getpeername_addr := { sin_family := 0, sin_port := 0, s_addr := 0 }
    inet_ntop := none, setsockopt_ret := 0 }

/-- An `accept` that returns descriptor 7 for a peer at 127.0.0.1:40000, with
every later call succeeding. -/
def acceptOk : AcceptOutcome :=
  { accept_ret := 7, accept_errno := 0
    accept_addr := { sin_family := 2, sin_port := 16540, s_addr := 16777343 }
    alloc := Socket.zero, getpeername_ret := 0
    getpeername_addr := { sin_family := 2, sin_port := 16540, s_addr := 16777343 }
    inet_ntop := some [49, 50, 55, 46, 48, 46, 48, 46, 49], setsockopt_ret := 0 }

/-- An `Sock__init` in which every platform call succeeds (`socket()` gives
descriptor 4, `inet_pton` accepts the address). -/
def initOk : InitOutcome :=
  { socket_ret := 4, setsockopt_ret := 0, inet_pton_ret := 1, inet_pton_addr := 16777343 }

/-! ## Theorems -/

/-- A `u32` difference of two ordered addresses never exceeds the difference. -/
theorem toU32_sub_le (a b : Nat) (h : a ≤ b) : toU32 ((b : Int) - a) ≤ b - a := by
  unfold toU32
  omega

/-- Two memories that agree on a region load the same bytes from it. -/
theorem Mem.load_congr (m1 m2 : Mem) (p n : Nat) (h : ∀ i, i < n → m1 (p + i) = m2 (p + i)) :
    Mem.load m1 p n = Mem.load m2 p n := by
  unfold Mem.load
  apply List.map_congr_left
  intro i hi
  exact h i (List.mem_range.mp hi)

/-- After `memcpy` the destination holds what the source held before. -/
theorem Mem.load_memcpy (m : Mem) (dst src n : Nat) :
    Mem.load (Mem.memcpy m dst src n) dst n = Mem.load m src n := by
  unfold Mem.load
  apply List.map_congr_left
  intro i hi
  have hi' := List.mem_range.mp hi
  simp [Mem.memcpy, hi']

/-- C3. Read tri-state on a socket that is not Closed, for `maxLen >= 1`:
a read of `n > 0` bytes (`n <= maxLen`) invokes `onsockrecv` once, after the
one backend call, with the first `n` bytes of the buffer and length `n`,
returns `1` and leaves the socket unchanged; would-block returns `0` with no
callback and the socket unchanged; end of stream (`0`) or any other error
closes the socket, invokes no callback and returns `-1`. -/
theorem Sock__read_tri_state (P : Posix) (socket : Socket) (maxLen : Nat) (o : ReadOutcome)
    (hopen : socket.state ≠ SocketState.SOCKET_CLOSED) (hlen : 1 ≤ maxLen) :
    (∀ n : Nat, 0 < n → n ≤ maxLen → o.ret = n → o.buf.length = maxLen →
        Sock__read P socket maxLen o =
          { sock := socket
            trace := [Event.read socket._nix_socket maxLen,
                      Event.onsockrecv socket (o.buf.take n) n]
            ret := 1 } ∧ (o.buf.take n).length = n) ∧
    (o.ret = -1 → (o.errno = P.EAGAIN ∨ o.errno = P.EWOULDBLOCK) →
        Sock__read P socket maxLen o =
          { sock := socket, trace := [Event.read socket._nix_socket maxLen], ret := 0 }) ∧
    ((o.ret = 0 ∨ (o.ret = -1 ∧ ¬ (o.errno = P.EAGAIN ∨ o.errno = P.EWOULDBLOCK))) →
        Sock__read P socket maxLen o =
          { sock := { socket with
                        state := SocketState.SOCKET_CLOSED
                        sessionState := SessionState.SESSION_SERVER_HUNGUP
                        _nix_socket := 0 }
            trace := [Event.read socket._nix_socket maxLen, Event.close socket._nix_socket]
            ret := -1 }) := by
  have hl : ¬ maxLen < 1 := by omega
  refine ⟨?_, ?_, ?_⟩
  · intro n hn hle hret hbuf
    have hn0 : n ≠ 0 := by omega
    refine ⟨?_, ?_⟩
    · simp [Sock__read, hl, hopen, hret, hn0]
    · simp [List.length_take, hbuf, hle]
  · intro hret hwb
    have hnp : ¬ o.ret > 0 := by rw [hret]; decide
    simp [Sock__read, hl, hopen, hnp, hret, hwb]
  · rintro (h0 | ⟨h1, hne⟩)
    · have hnp : ¬ o.ret > 0 := by rw [h0]; decide
      simp [Sock__read, Sock__close, hl, hopen, h0]
    · have hnp : ¬ o.ret > 0 := by rw [h1]; decide
      simp [Sock__read, Sock__close, hl, hopen, hnp, h1, hne]

/-- Witness for C3: four bytes delivered, would-block, end of stream. -/
theorem Sock__read_tri_state_witness :
    Sock__read linux client5 4 ⟨4, 0, [80, 73, 78, 71]⟩ =
      { sock := client5
        trace := [Event.read 5 4, Event.onsockrecv client5 [80, 73, 78, 71] 4]
        ret := 1 } ∧
    Sock__read linux client5 4 ⟨-1, 11, [0, 0, 0, 0]⟩ =
      { sock := client5, trace := [Event.read 5 4], ret := 0 } ∧
    (Sock__read linux client5 4 ⟨0, 0, [0, 0, 0, 0]⟩).sock.state = SocketState.SOCKET_CLOSED :=
  ⟨((Sock__read_tri_state linux client5 4 ⟨4, 0, [80, 73, 78, 71]⟩ (by decide) (by decide)).1
      4 (by decide) (by decide) rfl rfl).1,
   (Sock__read_tri_state linux client5 4 ⟨-1, 11, [0, 0, 0, 0]⟩ (by decide) (by decide)).2.1
      rfl (Or.inl rfl),
   by rw [(Sock__read_tri_state linux client5 4 ⟨0, 0, [0, 0, 0, 0]⟩ (by decide) (by decide)).2.2
      (Or.inl rfl)]⟩

/-- C4. Write outcomes: `len < 1` returns `-1` with no backend call, no
callback and the socket unchanged; on a socket that is not Closed with
`len >= 1`, a send that succeeds (any result other than `-1`) is followed by
exactly one `onsocksend` and returns `1` with the socket unchanged; would-block
returns `-1` with no callback and the socket unchanged; any other send error
closes the socket, invokes no callback and returns `-1`. -/
theorem Sock__write_outcomes (P : Posix) (socket : Socket) (buf : List Nat) (len : Nat)
    (o : SysRet) :
    (len < 1 → Sock__write P socket buf len o = { sock := socket, trace := [], ret := -1 }) ∧
    (socket.state ≠ SocketState.SOCKET_CLOSED → 1 ≤ len →
      (o.ret ≠ -1 →
        Sock__write P socket buf len o =
          { sock := socket
            trace := [Event.send socket._nix_socket buf len, Event.onsocksend socket buf len]
            ret := 1 }) ∧
      (o.ret = -1 → (o.errno = P.EAGAIN ∨ o.errno = P.EWOULDBLOCK) →
        Sock__write P socket buf len o =
          { sock := socket, trace := [Event.send socket._nix_socket buf len], ret := -1 }) ∧
      (o.ret = -1 → ¬ (o.errno = P.EAGAIN ∨ o.errno = P.EWOULDBLOCK) →
        Sock__write P socket buf len o =
          { sock := { socket with
                        state := SocketState.SOCKET_CLOSED
                        sessionState := SessionState.SESSION_SERVER_HUNGUP
                        _nix_socket := 0 }
            trace := [Event.send socket._nix_socket buf len, Event.close socket._nix_socket]
            ret := -1 })) := by
  refine ⟨?_, ?_⟩
  · intro h
    simp [Sock__write, h]
  · intro hopen hlen
    have hl : ¬ len < 1 := by omega
    refine ⟨?_, ?_, ?_⟩
    · intro hret
      simp [Sock__write, hl, hopen, hret]
    · intro hret hwb
      simp [Sock__write, hl, hopen, hret, hwb]
    · intro hret hne
      simp [Sock__write, Sock__close, hl, hopen, hret, hne]

/-- Witness for C4: empty write, full send, would-block, hard error. -/
theorem Sock__write_outcomes_witness :
    Sock__write linux client5 [] 0 ⟨0, 0⟩ = { sock := client5, trace := [], ret := -1 } ∧
    Sock__write linux client5 [80, 73, 78, 71] 4 ⟨4, 0⟩ =
      { sock := client5
        trace := [Event.send 5 [80, 73, 78, 71] 4, Event.onsocksend client5 [80, 73, 78, 71] 4]
        ret := 1 } ∧
    Sock__write linux client5 [80, 73, 78, 71] 4 ⟨-1, 11⟩ =
      { sock := client5, trace := [Event.send 5 [80, 73, 78, 71] 4], ret := -1 } ∧
    (Sock__write linux client5 [80, 73, 78, 71] 4 ⟨-1, 32⟩).sock.state =
      SocketState.SOCKET_CLOSED :=
  ⟨(Sock__write_outcomes linux client5 [] 0 ⟨0, 0⟩).1 (by decide),
   ((Sock__write_outcomes linux client5 [80, 73, 78, 71] 4 ⟨4, 0⟩).2 (by decide) (by decide)).1
      (by decide),
   ((Sock__write_outcomes linux client5 [80, 73, 78, 71] 4 ⟨-1, 11⟩).2 (by decide) (by decide)).2.1
      rfl (Or.inl rfl),
   by rw [((Sock__write_outcomes linux client5 [80, 73, 78, 71] 4 ⟨-1, 32⟩).2
      (by decide) (by decide)).2.2 rfl (by decide)]⟩

/-- C5, as stated, fails: a write of 4 bytes of which the backend accepts 2
succeeds (returns `1`) and passes length 4, not 2, to `onsocksend`. -/
theorem Sock__write_short_send_reports_len :
    (Sock__write linux client5 [80, 73, 78, 71] 4 ⟨2, 0⟩).ret = 1 ∧
    onsocksend_lens (Sock__write linux client5 [80, 73, 78, 71] 4 ⟨2, 0⟩).trace = [4] ∧
    ¬ onsocksend_lens (Sock__write linux client5 [80, 73, 78, 71] 4 ⟨2, 0⟩).trace = [2] := by
  decide

/-- C5, amended. On every successful `Sock__write` (socket not Closed,
`len >= 1`, the backend accepts `k` bytes with `1 <= k <= len`) the send
callback is invoked once and the length passed to it is the requested `len`;
it is the accepted count exactly when nothing was left over (`k = len`). -/
theorem Sock__write_callback_len (P : Posix) (socket : Socket) (buf : List Nat) (len k : Nat)
    (errno : Int) (hopen : socket.state ≠ SocketState.SOCKET_CLOSED)
    (hk : 1 ≤ k) (hkl : k ≤ len) :
    (Sock__write P socket buf len ⟨k, errno⟩).ret = 1 ∧
    onsocksend_lens (Sock__write P socket buf len ⟨k, errno⟩).trace = [len] ∧
    (onsocksend_lens (Sock__write P socket buf len ⟨k, errno⟩).trace = [k] ↔ k = len) := by
  have hl : ¬ len < 1 := by omega
  have hret : ¬ ((k : Int) = -1) := by omega
  have h : Sock__write P socket buf len ⟨k, errno⟩ =
      { sock := socket
        trace := [Event.send socket._nix_socket buf len, Event.onsocksend socket buf len]
        ret := 1 } := by
    simp [Sock__write, hl, hopen, hret]
  rw [h]
  refine ⟨rfl, rfl, ?_⟩
  simp [onsocksend_lens]
  omega

/-- Witness for C5 amended: a short send of 2 out of 4 bytes. -/
theorem Sock__write_callback_len_witness :
    onsocksend_lens (Sock__write linux client5 [80, 73, 78, 71] 4 ⟨(2 : Nat), 0⟩).trace = [4] :=
  (Sock__write_callback_len linux client5 [80, 73, 78, 71] 4 2 0
    (by decide) (by decide) (by decide)).2.1

/-- C7. Accept without a connection on a listener that is not Closed: on
would-block the listener is unchanged, the only step is the backend `accept`,
and neither `onsockalloc` nor `onsockaccept` is invoked; on any other `accept`
error the listener is closed and neither callback is invoked. -/
theorem Sock__accept_no_connection (P : Posix) (B : Build) (socket : Socket)
    (o : AcceptOutcome) (hopen : socket.state ≠ SocketState.SOCKET_CLOSED)
    (hret : o.accept_ret = -1) :
    ((o.accept_errno = P.EAGAIN ∨ o.accept_errno = P.EWOULDBLOCK) →
      Sock__accept P B socket o =
        { sock := socket, child := none, trace := [Event.accept socket._nix_socket]
          asserted := false, aborted := false }) ∧
    (¬ (o.accept_errno = P.EAGAIN ∨ o.accept_errno = P.EWOULDBLOCK) →
      Sock__accept P B socket o =
        { sock := { socket with
                      state := SocketState.SOCKET_CLOSED
                      sessionState := SessionState.SESSION_SERVER_HUNGUP
                      _nix_socket := 0 }
          child := none
          trace := [Event.accept socket._nix_socket, Event.close socket._nix_socket]
          asserted := false, aborted := false }) := by
  refine ⟨?_, ?_⟩
  · intro hwb
    simp [Sock__accept, hopen, hret, hwb]
  · intro hne
    simp [Sock__accept, Sock__close, hopen, hret, hne]

/-- Witness for C7: would-block, then a hard error (`EMFILE`, 24). -/
theorem Sock__accept_no_connection_witness :
    Sock__accept linux ⟨true, false⟩ listener3 acceptWouldBlock =
      { sock := listener3, child := none, trace := [Event.accept 3]
        asserted := false, aborted := false } ∧
    (Sock__accept linux ⟨true, false⟩ listener3
      { acceptWouldBlock with accept_errno := 24 }).sock.state = SocketState.SOCKET_CLOSED :=
  ⟨(Sock__accept_no_connection linux ⟨true, false⟩ listener3 acceptWouldBlock
      (by decide) rfl).1 (Or.inl rfl),
   by rw [(Sock__accept_no_connection linux ⟨true, false⟩ listener3
      { acceptWouldBlock with accept_errno := 24 } (by decide) rfl).2 (by decide)]⟩

/-- C1, evaluated at the failing input: a socket that `Sock__close` has closed
(state Closed, descriptor reset to 0) is given to `Sock__connect` and the
backend `connect` returns 0.  `Sock__connect` has no Closed check: it calls
`connect` on descriptor 0, sets the state back to Connected and invokes
`onsockconnect`. -/
theorem Sock__connect_reopens_closed :
    closed0.state = SocketState.SOCKET_CLOSED ∧
    (Sock__connect linux closed0 ⟨0, 0⟩).sock.state = SocketState.SOCKET_CONNECTED ∧
    (Sock__connect linux closed0 ⟨0, 0⟩).trace =
      [Event.connect 0 closed0._nix_addr,
       Event.onsockconnect { closed0 with state := SocketState.SOCKET_CONNECTED }] := by
  decide

/-- Every operation other than `Sock__connect` keeps a Closed socket Closed,
whatever its arguments and whatever the backend returns. -/
theorem closed_stays_closed_except_connect (P : Posix) (B : Build) (socket : Socket)
    (h : socket.state = SocketState.SOCKET_CLOSED) :
    (∀ addr port opts o,
      (Sock__init P B socket addr port opts o).sock.state = SocketState.SOCKET_CLOSED) ∧
    (∀ b l, (Sock__listen socket b l).sock.state = SocketState.SOCKET_CLOSED) ∧
    (∀ o, (Sock__accept P B socket o).sock.state = SocketState.SOCKET_CLOSED) ∧
    (∀ len o, (Sock__read P socket len o).sock.state = SocketState.SOCKET_CLOSED) ∧
    (∀ buf len o, (Sock__write P socket buf len o).sock.state = SocketState.SOCKET_CLOSED) ∧
    (Sock__shutdown socket).sock.state = SocketState.SOCKET_CLOSED ∧
    (Sock__close socket).sock.state = SocketState.SOCKET_CLOSED ∧
    (Sock__free socket).sock.state = SocketState.SOCKET_CLOSED := by
  refine ⟨?_, ?_, ?_, ?_, ?_, ?_, ?_, ?_⟩
  · intro addr port opts o
    unfold Sock__init Sock__close
    simp only []
    split_ifs <;> simp_all
  · intro b l
    unfold Sock__listen Sock__close
    simp only []
    split_ifs <;> simp_all
  · intro o
    simp [Sock__accept, h]
  · intro len o
    unfold Sock__read
    simp [h]
  · intro buf len o
    unfold Sock__write
    simp [h]
  · simp [Sock__shutdown, h]
  · simp [Sock__close, h]
  · simp [Sock__free, h]

/-- C2, evaluated at the failing inputs: on the socket `Sock__close` has closed
(state Closed, descriptor reset to 0) `Sock__listen` calls `bind` and then
`listen` on descriptor 0, and `Sock__connect` calls `connect` on it and, when
that returns 0, sets the state to Connected and invokes `onsockconnect`.
Neither looks at the state: for every socket and every result of the backend,
the first thing `Sock__listen` does is `bind` on the socket's descriptor and
the first thing `Sock__connect` does is `connect` on it.  `Sock__init` has no
check either: in the release build it calls `fcntl` on the stale
descriptor. -/
theorem Sock__listen_connect_use_closed_handle :
    closed0.state = SocketState.SOCKET_CLOSED ∧
    (Sock__listen closed0 0 0).trace =
      [Event.bind 0 closed0._nix_addr, Event.listen 0 3] ∧
    (Sock__listen closed0 (-1) 0).trace = [Event.bind 0 closed0._nix_addr] ∧
    (Sock__connect linux closed0 ⟨-1, 111⟩).trace = [Event.connect 0 closed0._nix_addr] ∧
    (Sock__connect linux closed0 ⟨0, 0⟩).trace =
      [Event.connect 0 closed0._nix_addr,
       Event.onsockconnect { closed0 with state := SocketState.SOCKET_CONNECTED }] ∧
    (Sock__init linux ⟨false, false⟩ closed0 [49, 50, 55, 46, 48, 46, 48, 46, 49]
        [57, 48, 48, 48] 1 initOk).trace = [Event.fcntl 0] ∧
    (∀ (socket : Socket) (b l : Int),
      (Sock__listen socket b l).trace.head? =
        some (Event.bind socket._nix_socket socket._nix_addr)) ∧
    (∀ (P : Posix) (socket : Socket) (o : SysRet),
      (Sock__connect P socket o).trace.head? =
        some (Event.connect socket._nix_socket socket._nix_addr)) := by
  refine ⟨by decide, by decide, by decide, by decide, by decide, by decide, ?_, ?_⟩
  · intro socket b l
    unfold Sock__listen
    simp only []
    split_ifs <;> rfl
  · intro P socket o
    unfold Sock__connect
    simp only []
    split_ifs <;> rfl

/-- C6, evaluated at the failing input: the listener is open, the backend
`accept` returns descriptor 7, and the following `getpeername` returns `-1`.
In either build `Sock__accept` invokes `onsockalloc`, stores the descriptor in
the child and returns: the child's state is left as allocated
(`SOCKET_NONE`, not Connected) and `onsockaccept` is never invoked. -/
theorem Sock__accept_getpeername_failure (B : Build) :
    Sock__accept linux B listener3 { acceptOk with getpeername_ret := -1 } =
      { sock := { listener3 with _nix_addr := acceptOk.accept_addr }
        child := some { Socket.zero with _nix_socket := 7 }
        trace := [Event.accept 3, Event.onsockalloc, Event.getpeername 7]
        asserted := false, aborted := false } ∧
    ({ Socket.zero with _nix_socket := 7 } : Socket).state = SocketState.SOCKET_NONE := by
  rcases B with ⟨_ | _, _ | _⟩ <;> decide

/-- C9. Connect: if the backend `connect` succeeds (returns anything other
than `-1`) or reports connection-in-progress (`EINPROGRESS`), `Sock__connect`
sets the state to Connected, changes no other field, and after the one backend
call invokes `onsockconnect` exactly once with that socket; if `connect` fails
with any other error the state is Closed afterwards and no callback is
invoked. -/
theorem Sock__connect_outcomes (P : Posix) (socket : Socket) (o : SysRet) :
    ((o.ret ≠ -1 ∨ o.errno = P.EINPROGRESS) →
      Sock__connect P socket o =
        { sock := { socket with state := SocketState.SOCKET_CONNECTED }
          trace := [Event.connect socket._nix_socket socket._nix_addr,
                    Event.onsockconnect { socket with state := SocketState.SOCKET_CONNECTED }] }) ∧
    ((o.ret = -1 ∧ o.errno ≠ P.EINPROGRESS) →
      (Sock__connect P socket o).sock.state = SocketState.SOCKET_CLOSED ∧
      (Sock__connect P socket o).trace.all Event.isBackend = true) := by
  refine ⟨?_, ?_⟩
  · intro h
    have hc : ¬ (o.ret = -1 ∧ ¬ o.errno = P.EINPROGRESS) := by
      rintro ⟨h1, h2⟩
      rcases h with h | h
      · exact h h1
      · exact h2 h
    simp [Sock__connect, hc]
  · intro h
    have hc : o.ret = -1 ∧ ¬ o.errno = P.EINPROGRESS := h
    unfold Sock__connect Sock__close
    simp only [hc, not_false_eq_true, and_self, if_true]
    split_ifs with hs
    · simp [hs, Event.isBackend]
    · simp [Event.isBackend]

/-- Witness for C9: immediate success, in progress, and refusal
(`ECONNREFUSED`, 111). -/
theorem Sock__connect_outcomes_witness :
    (Sock__connect linux listener3 ⟨0, 0⟩).sock.state = SocketState.SOCKET_CONNECTED ∧
    (Sock__connect linux listener3 ⟨-1, 115⟩).trace =
      [Event.connect 3 listener3._nix_addr,
       Event.onsockconnect { listener3 with state := SocketState.SOCKET_CONNECTED }] ∧
    (Sock__connect linux listener3 ⟨-1, 111⟩).sock.state = SocketState.SOCKET_CLOSED :=
  ⟨by rw [(Sock__connect_outcomes linux listener3 ⟨0, 0⟩).1 (Or.inl (by decide))],
   by rw [(Sock__connect_outcomes linux listener3 ⟨-1, 115⟩).1 (Or.inr rfl)]; rfl,
   ((Sock__connect_outcomes linux listener3 ⟨-1, 111⟩).2 ⟨rfl, by decide⟩).1⟩

/-- C11. Close: on a socket that is not Closed `Sock__close` sets the state to
Closed and the session state to ServerHungup and releases the descriptor with
exactly one backend `close`; on a Closed socket, and so on a second call, it
changes no field and issues no backend call. -/
theorem Sock__close_once_then_noop (socket : Socket) :
    (socket.state ≠ SocketState.SOCKET_CLOSED →
      Sock__close socket =
        { sock := { socket with
                      state := SocketState.SOCKET_CLOSED
                      sessionState := SessionState.SESSION_SERVER_HUNGUP
                      _nix_socket := 0 }
          trace := [Event.close socket._nix_socket] }) ∧
    (socket.state = SocketState.SOCKET_CLOSED →
      Sock__close socket = { sock := socket, trace := [] }) ∧
    Sock__close (Sock__close socket).sock = { sock := (Sock__close socket).sock, trace := [] } := by
  refine ⟨?_, ?_, ?_⟩
  · intro h
    simp [Sock__close, h]
  · intro h
    simp [Sock__close, h]
  · by_cases h : socket.state = SocketState.SOCKET_CLOSED
    · simp [Sock__close, h]
    · simp [Sock__close, h]

/-- Witness for C11: closing the connected socket on descriptor 5, then again. -/
theorem Sock__close_once_then_noop_witness :
    (Sock__close client5).trace = [Event.close 5] ∧
    (Sock__close client5).sock.state = SocketState.SOCKET_CLOSED ∧
    Sock__close closed0 = { sock := closed0, trace := [] } :=
  ⟨by rw [(Sock__close_once_then_noop client5).1 (by decide)]; rfl,
   by rw [(Sock__close_once_then_noop client5).1 (by decide)],
   (Sock__close_once_then_noop closed0).2.1 (by decide)⟩

/-- C12. On a socket whose state is Closed, `Sock__accept`, `Sock__read`,
`Sock__write`, `Sock__shutdown` and `Sock__close` return the socket with every
field as it was and an empty list of backend calls and callbacks, for every
argument and whatever the backend would return; `Sock__read` and
`Sock__write` return `-1`. -/
theorem closed_socket_frame (P : Posix) (B : Build) (socket : Socket)
    (h : socket.state = SocketState.SOCKET_CLOSED) :
    (∀ o, (Sock__accept P B socket o).sock = socket ∧ (Sock__accept P B socket o).trace = [] ∧
      (Sock__accept P B socket o).child = none) ∧
    (∀ len o, (Sock__read P socket len o).sock = socket ∧
      (Sock__read P socket len o).trace = [] ∧ (Sock__read P socket len o).ret = -1) ∧
    (∀ buf len o, (Sock__write P socket buf len o).sock = socket ∧
      (Sock__write P socket buf len o).trace = [] ∧ (Sock__write P socket buf len o).ret = -1) ∧
    ((Sock__shutdown socket).sock = socket ∧ (Sock__shutdown socket).trace = []) ∧
    ((Sock__close socket).sock = socket ∧ (Sock__close socket).trace = []) := by
  refine ⟨?_, ?_, ?_, ?_, ?_⟩
  · intro o
    simp [Sock__accept, h]
  · intro len o
    unfold Sock__read
    by_cases hl : len < 1 <;> simp [h, hl]
  · intro buf len o
    unfold Sock__write
    by_cases hl : len < 1 <;> simp [h, hl]
  · simp [Sock__shutdown]
  · simp [Sock__close, h]

/-- Witness for C12, on the socket `Sock__close` has closed. -/
theorem closed_socket_frame_witness :
    (Sock__accept linux ⟨true, false⟩ closed0 acceptOk).trace = [] ∧
    (Sock__read linux closed0 4 ⟨4, 0, [80, 73, 78, 71]⟩).ret = -1 ∧
    (Sock__write linux closed0 [80, 73, 78, 71] 4 ⟨4, 0⟩).sock = closed0 :=
  ⟨((closed_socket_frame linux ⟨true, false⟩ closed0 (by decide)).1 acceptOk).2.1,
   ((closed_socket_frame linux ⟨true, false⟩ closed0 (by decide)).2.1 4
      ⟨4, 0, [80, 73, 78, 71]⟩).2.2,
   ((closed_socket_frame linux ⟨true, false⟩ closed0 (by decide)).2.2.1 [80, 73, 78, 71] 4
      ⟨4, 0⟩).1⟩

/-- C13, as stated, fails at two inputs, the address "x" being rejected in
both.  In a `DEBUG_SLOW` build where `setsockopt` fails, the assertion in
`Sock__noNagle` reaches `abort()` before the address is looked at:
`Sock__init` does not return and the state is not Closed.  On a socket handed
in Closed with session state ClientConnected, `Sock__close` is a no-op and
the session state stays ClientConnected. -/
theorem Sock__init_rejected_address_aborts_or_keeps_session :
    (Sock__init linux ⟨true, false⟩ Socket.zero [120] [57, 48, 48, 48] 1
      { initOk with setsockopt_ret := -1, inet_pton_ret := 0 }).aborted = true ∧
    (Sock__init linux ⟨true, false⟩ Socket.zero [120] [57, 48, 48, 48] 1
      { initOk with setsockopt_ret := -1, inet_pton_ret := 0 }).sock.state =
        SocketState.SOCKET_NONE ∧
    ({ closed0 with sessionState := SessionState.SESSION_CLIENT_CONNECTED } : Socket).state =
      SocketState.SOCKET_CLOSED ∧
    (Sock__init linux ⟨false, false⟩
      { closed0 with sessionState := SessionState.SESSION_CLIENT_CONNECTED }
      [120] [57, 48, 48, 48] 1 { initOk with inet_pton_ret := 0 }).aborted = false ∧
    (Sock__init linux ⟨false, false⟩
      { closed0 with sessionState := SessionState.SESSION_CLIENT_CONNECTED }
      [120] [57, 48, 48, 48] 1 { initOk with inet_pton_ret := 0 }).sock.sessionState =
        SessionState.SESSION_CLIENT_CONNECTED := by
  decide

/-- C13, amended. Init with an address the conversion rejects (`inet_pton`
returns something other than 1): unless a `DEBUG_SLOW` build stops at the
failed `setsockopt` assertion, `Sock__init` returns normally with state Closed
and, for a socket that was not already Closed with another session state,
session state ServerHungup; it invokes no callback. -/
theorem Sock__init_rejected_address (P : Posix) (B : Build) (sock : Socket)
    (addr port : List Nat) (opts : Nat) (o : InitOutcome)
    (hassert : B.DEBUG_SLOW = true → B.expect_assert = false → o.setsockopt_ret = 0)
    (hhung : sock.state = SocketState.SOCKET_CLOSED →
      sock.sessionState = SessionState.SESSION_SERVER_HUNGUP)
    (hrej : o.inet_pton_ret ≠ 1) :
    (Sock__init P B sock addr port opts o).aborted = false ∧
    (Sock__init P B sock addr port opts o).sock.state = SocketState.SOCKET_CLOSED ∧
    (Sock__init P B sock addr port opts o).sock.sessionState =
      SessionState.SESSION_SERVER_HUNGUP ∧
    (Sock__init P B sock addr port opts o).trace.all Event.isBackend = true := by
  have hna : (Sock__noNagle B
      (if B.DEBUG_SLOW then
        { ({ sock with addr := memcpy sock.addr (addr ++ [0])
                       port := memcpy sock.port (port ++ [0]) } : Socket) with
            _nix_socket := toU64 o.socket_ret }
       else { sock with addr := memcpy sock.addr (addr ++ [0])
                        port := memcpy sock.port (port ++ [0]) })
      o.setsockopt_ret).aborted = false := by
    unfold Sock__noNagle
    split_ifs <;> simp_all
  unfold Sock__init
  simp only [hna, hrej, ne_eq, not_false_eq_true, if_true, Bool.false_eq_true, if_false]
  unfold Sock__close Sock__noNagle Sock__async
  by_cases hc : sock.state = SocketState.SOCKET_CLOSED
  · have hs := hhung hc
    split_ifs <;> simp_all [Event.isBackend]
  · split_ifs <;> simp_all [Event.isBackend]

/-- Witness for C13: the address "x" is rejected in a `DEBUG_SLOW` build. -/
theorem Sock__init_rejected_address_witness :
    (Sock__init linux ⟨true, false⟩ Socket.zero [120] [57, 48, 48, 48] 1
      { initOk with inet_pton_ret := 0 }).sock.state = SocketState.SOCKET_CLOSED ∧
    (Sock__init linux ⟨true, false⟩ Socket.zero [120] [57, 48, 48, 48] 1
      { initOk with inet_pton_ret := 0 }).sock.sessionState =
        SessionState.SESSION_SERVER_HUNGUP :=
  ⟨(Sock__init_rejected_address linux ⟨true, false⟩ Socket.zero [120] [57, 48, 48, 48] 1
      { initOk with inet_pton_ret := 0 } (fun _ _ => rfl) (by decide) (by decide)).2.1,
   (Sock__init_rejected_address linux ⟨true, false⟩ Socket.zero [120] [57, 48, 48, 48] 1
      { initOk with inet_pton_ret := 0 } (fun _ _ => rfl) (by decide) (by decide)).2.2.1⟩

/-- C15, evaluated at the failing input: a connected socket, 4 bytes, `send`
returning `SOCKET_ERROR` with a connection reset (10054) and with would-block
(10035).  The Windows `Sock__write` closes the socket, then still invokes
`onsocksend` and returns `1`; the Linux `Sock__write` on the same socket and
outcome (104 `ECONNRESET`, 11 `EAGAIN`) returns `-1` without a callback, and on
would-block leaves the socket open. -/
theorem Win32_Sock__write_error_falls_through :
    Win32.Sock__write winsock client5w [80, 73, 78, 71] 4 ⟨-1, 10054⟩ =
      { sock := (Win32.Sock__close winsock client5w).sock
        trace := [Event.send 5 [80, 73, 78, 71] 4, Event.closesocket 5,
                  Event.onsocksend (Win32.Sock__close winsock client5w).sock [80, 73, 78, 71] 4]
        ret := 1 } ∧
    (Sock__write linux client5w [80, 73, 78, 71] 4 ⟨-1, 104⟩).ret = -1 ∧
    onsocksend_lens (Sock__write linux client5w [80, 73, 78, 71] 4 ⟨-1, 104⟩).trace = [] ∧
    (Win32.Sock__write winsock client5w [80, 73, 78, 71] 4 ⟨-1, 10035⟩).ret = 1 ∧
    (Win32.Sock__write winsock client5w [80, 73, 78, 71] 4 ⟨-1, 10035⟩).sock.state =
      SocketState.SOCKET_CLOSED ∧
    (Sock__write linux client5w [80, 73, 78, 71] 4 ⟨-1, 11⟩).ret = -1 ∧
    (Sock__write linux client5w [80, 73, 78, 71] 4 ⟨-1, 11⟩).sock.state =
      SocketState.SOCKET_CONNECTED := by
  decide

/-- C16, evaluated at the failing inputs: on the connect event (code 2)
`libwebsocket_cb` sets the state to Connected but invokes no callback; on the
close event (code 3) and on the connection-error event (code 1) it leaves a
Connected socket exactly as it was, state included. -/
theorem libwebsocket_cb_ignores_close_and_error :
    Emscripten.libwebsocket_cb wsCodes 0 Socket.zero 1 2 0 [] 0 =
      { sock := { Socket.zero with
                    state := SocketState.SOCKET_CONNECTED
                    sessionState := SessionState.SESSION_CLIENT_WASM_CONNECT_CB }
        trace := [], ret := 0 } ∧
    Emscripten.libwebsocket_cb wsCodes 0 client5 1 3 0 [] 0 =
      { sock := client5, trace := [], ret := 0 } ∧
    Emscripten.libwebsocket_cb wsCodes 0 client5 1 1 0 [] 0 =
      { sock := client5, trace := [], ret := 0 } ∧
    client5.state = SocketState.SOCKET_CONNECTED := by
  decide

/-- C17. ByteBuffer invariant: for every buffer with
`data <= read <= write <= end` and every argument, each of `SZ_reset`,
`SZ_defrag`, `SZ_seek`, `SZ_read`, `SZ_write`, `SZ_copy` and `SZ_copyNS`
leaves `data` and `end` unchanged and the invariant true, whether it succeeds
or fails; for the two copies this holds of both buffers. -/
theorem SZ_invariant_kept (m : Mem) (buf other : ByteBuffer)
    (hinv : buf.inv) (hoth : other.inv) :
    ByteBuffer.kept buf (SZ_reset m buf).buf ∧
    ByteBuffer.kept buf (SZ_defrag m buf).buf ∧
    (∀ offset, ByteBuffer.kept buf (SZ_seek buf offset).buf) ∧
    (∀ dst len, ByteBuffer.kept buf (SZ_read buf dst len).buf) ∧
    (∀ data len, ByteBuffer.kept buf (SZ_write m buf data len).buf) ∧
    (ByteBuffer.kept buf (SZ_copy m buf other).src ∧
      ByteBuffer.kept other (SZ_copy m buf other).dst) ∧
    (ByteBuffer.kept buf (SZ_copyNS m buf other).src ∧
      ByteBuffer.kept other (SZ_copyNS m buf other).dst) := by
  obtain ⟨h1, h2, h3⟩ := hinv
  obtain ⟨g1, g2, g3⟩ := hoth
  have hlen := toU32_sub_le buf.read buf.write h2
  have hwrite : ∀ (b : ByteBuffer) data len, b.inv → ByteBuffer.kept b (SZ_write m b data len).buf := by
    intro b data len hb
    obtain ⟨b1, b2, b3⟩ := hb
    unfold SZ_write SZ_overflow_write ByteBuffer.kept ByteBuffer.inv
    split_ifs with h
    · exact ⟨rfl, rfl, b1, b2, b3⟩
    · simp only [gt_iff_lt, decide_eq_true_eq, not_lt] at h
      exact ⟨rfl, rfl, b1, by simp only; omega, h⟩
  have hseek : ∀ offset, ByteBuffer.kept buf (SZ_seek buf offset).buf := by
    intro offset
    unfold SZ_seek SZ_overflow_read ByteBuffer.kept ByteBuffer.inv
    split_ifs with h
    · exact ⟨rfl, rfl, h1, h2, h3⟩
    · simp only [gt_iff_lt, decide_eq_true_eq, not_lt] at h
      exact ⟨rfl, rfl, by simp only; omega, h, h3⟩
  refine ⟨?_, ?_, hseek, ?_, ?_, ?_, ?_⟩
  · unfold SZ_reset ByteBuffer.kept ByteBuffer.inv
    exact ⟨rfl, rfl, le_refl _, le_refl _, by simp only; omega⟩
  · unfold SZ_defrag ByteBuffer.kept ByteBuffer.inv
    simp only []
    split_ifs with ha hb
    · exact ⟨rfl, rfl, le_refl _, le_refl _, by simp only; omega⟩
    · exact ⟨rfl, rfl, h1, h2, h3⟩
    · exact ⟨rfl, rfl, le_refl _, by simp only; omega, by simp only; omega⟩
  · intro dst len
    unfold SZ_read SZ_overflow_read ByteBuffer.kept ByteBuffer.inv
    split_ifs with h
    · exact ⟨rfl, rfl, h1, h2, h3⟩
    · simp only [gt_iff_lt, decide_eq_true_eq, not_lt] at h
      exact ⟨rfl, rfl, by simp only; omega, h, h3⟩
  · intro data len
    exact hwrite buf data len ⟨h1, h2, h3⟩
  · unfold SZ_copy
    simp only []
    split_ifs with ha hb
    · exact ⟨⟨rfl, rfl, h1, h2, h3⟩, ⟨rfl, rfl, g1, g2, g3⟩⟩
    · exact ⟨hseek _, hwrite other _ _ ⟨g1, g2, g3⟩⟩
    · exact ⟨⟨rfl, rfl, h1, h2, h3⟩, ⟨rfl, rfl, g1, g2, g3⟩⟩
  · unfold SZ_copyNS
    simp only []
    split_ifs with ha hb
    · exact ⟨⟨rfl, rfl, h1, h2, h3⟩, ⟨rfl, rfl, g1, g2, g3⟩⟩
    · exact ⟨⟨rfl, rfl, h1, h2, h3⟩, hwrite other _ _ ⟨g1, g2, g3⟩⟩
    · exact ⟨⟨rfl, rfl, h1, h2, h3⟩, ⟨rfl, rfl, g1, g2, g3⟩⟩

/-- Witness for C17: capacity 16, ten bytes written, four read; then
`SZ_defrag`, and `SZ_copy` into an empty buffer of capacity 16. -/
theorem SZ_invariant_kept_witness :
    ByteBuffer.inv ⟨100, 104, 110, 116⟩ ∧
    ByteBuffer.kept ⟨100, 104, 110, 116⟩ (SZ_defrag pingPong ⟨100, 104, 110, 116⟩).buf ∧
    ByteBuffer.kept ⟨200, 200, 200, 216⟩
      (SZ_copy pingPong ⟨100, 104, 110, 116⟩ ⟨200, 200, 200, 216⟩).dst :=
  ⟨by decide,
   (SZ_invariant_kept pingPong ⟨100, 104, 110, 116⟩ ⟨200, 200, 200, 216⟩
      (by decide) (by decide)).2.1,
   (SZ_invariant_kept pingPong ⟨100, 104, 110, 116⟩ ⟨200, 200, 200, 216⟩
      (by decide) (by decide)).2.2.2.2.2.1.2⟩

/-- C18. The function `SZ_write(buf, data, len)` returns 0 exactly when
`write + len > end`, and then changes neither the buffer nor any stored byte;
otherwise it returns 1, the `len` bytes at the old write position are the
bytes of `data`, `write` has advanced by exactly `len`, `data`, `read` and
`end` are as before, and every byte outside the written range, the unread
bytes among them, is unchanged. -/
theorem SZ_write_checked (m : Mem) (buf : ByteBuffer) (data len : Nat) :
    ((SZ_write m buf data len).ret = 0 ↔ buf.write + len > buf.end_) ∧
    (buf.write + len > buf.end_ →
      (SZ_write m buf data len).buf = buf ∧ (SZ_write m buf data len).mem = m) ∧
    (buf.write + len ≤ buf.end_ →
      (SZ_write m buf data len).ret = 1 ∧
      (SZ_write m buf data len).buf = { buf with write := buf.write + len } ∧
      Mem.load (SZ_write m buf data len).mem buf.write len = Mem.load m data len ∧
      (∀ a, a < buf.write ∨ buf.write + len ≤ a → (SZ_write m buf data len).mem a = m a) ∧
      Mem.load (SZ_write m buf data len).mem buf.read (buf.write - buf.read) =
        Mem.load m buf.read (buf.write - buf.read)) := by
  have hframe : ∀ a, a < buf.write ∨ buf.write + len ≤ a →
      Mem.memcpy m buf.write data len a = m a := by
    intro a ha
    have : ¬ (buf.write ≤ a ∧ a < buf.write + len) := by omega
    simp [Mem.memcpy, this]
  by_cases h : buf.write + len > buf.end_
  · have hov : SZ_overflow_write buf len = true := by simp [SZ_overflow_write, h]
    refine ⟨?_, ?_, ?_⟩
    · simp [SZ_write, hov, h]
    · intro _
      simp [SZ_write, hov]
    · intro hle
      omega
  · have hov : SZ_overflow_write buf len = false := by
      simp only [SZ_overflow_write, decide_eq_false_iff_not]
      exact h
    refine ⟨?_, ?_, ?_⟩
    · simp [SZ_write, hov, h]
    · intro hgt
      exact absurd hgt h
    · intro _
      have hw : SZ_write m buf data len =
          { ret := 1, buf := { buf with write := buf.write + len }
            mem := Mem.memcpy m buf.write data len } := by
        simp [SZ_write, hov]
      rw [hw]
      refine ⟨rfl, rfl, Mem.load_memcpy m buf.write data len, hframe, ?_⟩
      apply Mem.load_congr
      intro i hi
      apply hframe
      omega

/-- Witness for C18: "PING" into the empty buffer of capacity 16, and twenty
bytes that do not fit. -/
theorem SZ_write_checked_witness :
    (SZ_write buf16.mem buf16.buf 1000 4).buf = ⟨100, 100, 104, 116⟩ ∧
    Mem.load (SZ_write buf16.mem buf16.buf 1000 4).mem 100 4 = [80, 73, 78, 71] ∧
    (SZ_write buf16.mem buf16.buf 1000 20).buf = buf16.buf :=
  ⟨((SZ_write_checked buf16.mem buf16.buf 1000 4).2.2 (by decide)).2.1,
   ((SZ_write_checked buf16.mem buf16.buf 1000 4).2.2 (by decide)).2.2.1,
   ((SZ_write_checked buf16.mem buf16.buf 1000 20).2.1 (by decide)).1⟩

/-- C19. The functions `SZ_read(buf, &dst, len)` and `SZ_seek(buf, len)`
return 0 exactly when `read + len > write`, and then change nothing (the
pointer behind `dst` included); otherwise each returns 1 and advances `read`
by exactly `len`, leaving `data`, `write` and `end` as they were, and
`SZ_read` stores the old read position in `dst`.  Neither touches memory. -/
theorem SZ_read_seek_checked (buf : ByteBuffer) (dst len : Nat) :
    ((SZ_read buf dst len).ret = 0 ↔ buf.read + len > buf.write) ∧
    ((SZ_seek buf len).ret = 0 ↔ buf.read + len > buf.write) ∧
    (buf.read + len > buf.write →
      SZ_read buf dst len = { ret := 0, buf := buf, dst := dst } ∧
      SZ_seek buf len = { ret := 0, buf := buf }) ∧
    (buf.read + len ≤ buf.write →
      SZ_read buf dst len =
        { ret := 1, buf := { buf with read := buf.read + len }, dst := buf.read } ∧
      SZ_seek buf len = { ret := 1, buf := { buf with read := buf.read + len } }) := by
  by_cases h : buf.read + len > buf.write
  · have hov : SZ_overflow_read buf len = true := by simp [SZ_overflow_read, h]
    refine ⟨?_, ?_, ?_, ?_⟩
    · simp [SZ_read, hov, h]
    · simp [SZ_seek, hov, h]
    · intro _
      simp [SZ_read, SZ_seek, hov]
    · intro hle
      omega
  · have hov : SZ_overflow_read buf len = false := by
      simp only [SZ_overflow_read, decide_eq_false_iff_not]
      exact h
    refine ⟨?_, ?_, ?_, ?_⟩
    · simp [SZ_read, hov, h]
    · simp [SZ_seek, hov, h]
    · intro hgt
      exact absurd hgt h
    · intro _
      simp [SZ_read, SZ_seek, hov]

/-- Witness for C19: six unread bytes; reading four succeeds, seven fails. -/
theorem SZ_read_seek_checked_witness :
    SZ_read ⟨100, 104, 110, 116⟩ 0 4 = { ret := 1, buf := ⟨100, 108, 110, 116⟩, dst := 104 } ∧
    SZ_seek ⟨100, 104, 110, 116⟩ 4 = { ret := 1, buf := ⟨100, 108, 110, 116⟩ } ∧
    SZ_read ⟨100, 104, 110, 116⟩ 0 7 = { ret := 0, buf := ⟨100, 104, 110, 116⟩, dst := 0 } :=
  ⟨((SZ_read_seek_checked ⟨100, 104, 110, 116⟩ 0 4).2.2.2 (by decide)).1,
   ((SZ_read_seek_checked ⟨100, 104, 110, 116⟩ 0 4).2.2.2 (by decide)).2,
   ((SZ_read_seek_checked ⟨100, 104, 110, 116⟩ 0 7).2.2.1 (by decide)).1⟩

/-- C22. The function `SZ_defrag` is idempotent: for every buffer (satisfying
the invariant or not), a second `SZ_defrag` right after the first leaves the
cursors and every stored byte, the unread bytes among them, as the first left
them. -/
theorem SZ_defrag_idempotent (m : Mem) (buf : ByteBuffer) :
    (SZ_defrag (SZ_defrag m buf).mem (SZ_defrag m buf).buf).buf = (SZ_defrag m buf).buf ∧
    (SZ_defrag (SZ_defrag m buf).mem (SZ_defrag m buf).buf).mem = (SZ_defrag m buf).mem ∧
    Mem.load (SZ_defrag (SZ_defrag m buf).mem (SZ_defrag m buf).buf).mem
        (SZ_defrag m buf).buf.read ((SZ_defrag m buf).buf.write - (SZ_defrag m buf).buf.read) =
      Mem.load (SZ_defrag m buf).mem
        (SZ_defrag m buf).buf.read ((SZ_defrag m buf).buf.write - (SZ_defrag m buf).buf.read) := by
  have key : SZ_defrag (SZ_defrag m buf).mem (SZ_defrag m buf).buf = SZ_defrag m buf := by
    by_cases ha : 0 = toU32 ((buf.write : Int) - buf.read)
    · have h1 : SZ_defrag m buf =
          { buf := { buf with read := buf.data, write := buf.data }, mem := m } := by
        simp only [SZ_defrag]
        rw [if_pos ha]
      rw [h1]
      simp [SZ_defrag, toU32]
    · by_cases hb : 0 = toU32 ((buf.read : Int) - buf.data)
      · have h1 : SZ_defrag m buf = { buf := buf, mem := m } := by
          simp only [SZ_defrag]
          rw [if_neg ha, if_pos hb]
        rw [h1]
        exact h1
      · have h1 : SZ_defrag m buf =
            { buf := { buf with read := buf.data
                                write := buf.data + toU32 ((buf.write : Int) - buf.read) }
              mem := Mem.memcpy m buf.data buf.read (toU32 ((buf.write : Int) - buf.read)) } := by
          simp only [SZ_defrag]
          rw [if_neg ha, if_neg hb]
        rw [h1]
        have hl : toU32 (((buf.data + toU32 ((buf.write : Int) - buf.read) : Nat) : Int) -
            buf.data) = toU32 ((buf.write : Int) - buf.read) := by
          unfold toU32
          omega
        have hg : toU32 ((buf.data : Int) - buf.data) = 0 := by
          unfold toU32
          omega
        simp only [SZ_defrag, hl, hg, ha, if_false, if_true]
  rw [key]
  exact ⟨rfl, rfl, rfl⟩

/-- C23. For every buffer and every length, `SZ_overflow_read(buf, len)` is
true iff `read + len > write` and `SZ_overflow_write(buf, len)` is true iff
`write + len > end`; both only compute a flag.  On a buffer satisfying the
invariant both are false at `len = 0` and at the exact count of readable /
writable bytes, and true at one more. -/
theorem SZ_overflow_exact (buf : ByteBuffer) (len : Nat) :
    (SZ_overflow_read buf len = true ↔ buf.read + len > buf.write) ∧
    (SZ_overflow_write buf len = true ↔ buf.write + len > buf.end_) ∧
    (buf.inv →
      SZ_overflow_read buf 0 = false ∧ SZ_overflow_write buf 0 = false ∧
      SZ_overflow_read buf (buf.write - buf.read) = false ∧
      SZ_overflow_write buf (buf.end_ - buf.write) = false ∧
      SZ_overflow_read buf (buf.write - buf.read + 1) = true ∧
      SZ_overflow_write buf (buf.end_ - buf.write + 1) = true) := by
  refine ⟨by simp [SZ_overflow_read], by simp [SZ_overflow_write], ?_⟩
  rintro ⟨_, h2, h3⟩
  simp only [SZ_overflow_read, SZ_overflow_write, decide_eq_true_eq, decide_eq_false_iff_not]
  omega

/-- Witness for C23: capacity 16 with six unread and six writable bytes. -/
theorem SZ_overflow_exact_witness :
    SZ_overflow_read ⟨100, 104, 110, 116⟩ 6 = false ∧
    SZ_overflow_read ⟨100, 104, 110, 116⟩ 7 = true ∧
    SZ_overflow_write ⟨100, 104, 110, 116⟩ 6 = false ∧
    SZ_overflow_write ⟨100, 104, 110, 116⟩ 7 = true :=
  ⟨((SZ_overflow_exact ⟨100, 104, 110, 116⟩ 0).2.2 (by decide)).2.2.1,
   ((SZ_overflow_exact ⟨100, 104, 110, 116⟩ 0).2.2 (by decide)).2.2.2.2.1,
   ((SZ_overflow_exact ⟨100, 104, 110, 116⟩ 0).2.2 (by decide)).2.2.2.1,
   ((SZ_overflow_exact ⟨100, 104, 110, 116⟩ 0).2.2 (by decide)).2.2.2.2.2⟩

/-- C24. Unchecked variants agree with the checked ones on safe inputs:
whenever `SZ_overflow_write(buf, len)` is false, `SZ_write_unsafe` returns the
same value and leaves the same buffer and memory as `SZ_write`; whenever
`SZ_overflow_read(buf, len)` is false, `SZ_read_unsafe` returns the pointer
`SZ_read` stores in `dst` and leaves the same buffer. -/
theorem SZ_unchecked_agree (m : Mem) (buf : ByteBuffer) (data dst len : Nat) :
    (SZ_overflow_write buf len = false →
      SZ_write_unsafe m buf data len = SZ_write m buf data len) ∧
    (SZ_overflow_read buf len = false →
      ( SZ_read_unsafe buf len).ptr = (SZ_read buf dst len).dst ∧
      ( SZ_read_unsafe buf len).buf = (SZ_read buf dst len).buf ∧
      (SZ_read buf dst len).ret = 1) := by
  refine ⟨?_, ?_⟩
  · intro h
    simp [ SZ_write_unsafe, SZ_write, h]
  · intro h
    simp [ SZ_read_unsafe, SZ_read, h]

/-- Witness for C24: four bytes into six writable, four out of six unread. -/
theorem SZ_unchecked_agree_witness :
    ( SZ_write_unsafe pingPong ⟨100, 104, 110, 116⟩ 1000 4).buf =
      (SZ_write pingPong ⟨100, 104, 110, 116⟩ 1000 4).buf ∧
    SZ_read_unsafe ⟨100, 104, 110, 116⟩ 4 = { ptr := 104, buf := ⟨100, 108, 110, 116⟩ } ∧
    ( SZ_read_unsafe ⟨100, 104, 110, 116⟩ 4).ptr = (SZ_read ⟨100, 104, 110, 116⟩ 0 4).dst :=
  ⟨congrArg SZRet.buf
      ((SZ_unchecked_agree pingPong ⟨100, 104, 110, 116⟩ 1000 0 4).1 (by decide)),
   by decide,
   ((SZ_unchecked_agree pingPong ⟨100, 104, 110, 116⟩ 1000 0 4).2 (by decide)).1⟩

/-- C25, as stated, fails: for a buffer with `data = 4096` and
`end = 4096 + 2^32` (so `data <= end`) `SZ_writable(buf, 0)` after `SZ_reset`
is 0, not `end - data`: the function returns a `u32`. -/
theorem SZ_reset_writable_truncates :
    (SZ_reset pingPong ⟨4096, 4100, 4200, 4294971392⟩).buf =
      ⟨4096, 4096, 4096, 4294971392⟩ ∧
    SZ_writable (SZ_reset pingPong ⟨4096, 4100, 4200, 4294971392⟩).buf 0 = 0 ∧
    ¬ SZ_writable (SZ_reset pingPong ⟨4096, 4100, 4200, 4294971392⟩).buf 0 =
        4294971392 - 4096 := by
  decide

/-- C25, amended. For every buffer with `data <= end` (addresses being 64-bit),
`SZ_reset` sets `read = write = data`, leaves `data` and `end` unchanged, sets
every byte of `[data, end)` to zero and no other byte; afterwards
`SZ_readable(buf, 0) = 0` and `SZ_writable(buf, 0)` is `end - data` reduced
modulo `2^32`, which is `end - data` for every capacity below `2^32`. -/
theorem SZ_reset_clears (m : Mem) (buf : ByteBuffer) (hle : buf.data ≤ buf.end_)
    (hptr : buf.end_ < 18446744073709551616) :
    (SZ_reset m buf).buf = { buf with read := buf.data, write := buf.data } ∧
    (∀ a, buf.data ≤ a → a < buf.end_ → (SZ_reset m buf).mem a = 0) ∧
    (∀ a, a < buf.data ∨ buf.end_ ≤ a → (SZ_reset m buf).mem a = m a) ∧
    SZ_readable (SZ_reset m buf).buf 0 = 0 ∧
    SZ_writable (SZ_reset m buf).buf 0 = (buf.end_ - buf.data) % 4294967296 ∧
    (buf.end_ - buf.data < 4294967296 →
      SZ_writable (SZ_reset m buf).buf 0 = buf.end_ - buf.data) := by
  have hsz : toU64 ((buf.end_ : Int) - buf.data) = buf.end_ - buf.data := by
    unfold toU64
    omega
  refine ⟨rfl, ?_, ?_, ?_, ?_, ?_⟩
  · intro a h1 h2
    have : buf.data ≤ a ∧ a < buf.data + (buf.end_ - buf.data) := by omega
    simp [SZ_reset, Mem.memset, hsz, this]
  · intro a h
    have : ¬ (buf.data ≤ a ∧ a < buf.data + (buf.end_ - buf.data)) := by omega
    simp [SZ_reset, Mem.memset, hsz, this]
  · simp [SZ_reset, SZ_readable, toU32]
  · simp only [SZ_reset, SZ_writable, toU32]
    omega
  · intro hcap
    simp only [SZ_reset, SZ_writable, toU32]
    omega

/-- Witness for C25 amended: a used buffer of capacity 16 at address 100. -/
theorem SZ_reset_clears_witness :
    (SZ_reset pingPong ⟨100, 104, 110, 116⟩).buf = ⟨100, 100, 100, 116⟩ ∧
    SZ_writable (SZ_reset pingPong ⟨100, 104, 110, 116⟩).buf 0 = 16 :=
  ⟨(SZ_reset_clears pingPong ⟨100, 104, 110, 116⟩ (by decide) (by decide)).1,
   (SZ_reset_clears pingPong ⟨100, 104, 110, 116⟩ (by decide) (by decide)).2.2.2.2.2
     (by decide)⟩

/-- C27, evaluated at the failing input: `src` holds six unread bytes, `dst`
has room for four.  `SZ_copy` returns 1; `dst` and its bytes are unchanged
(the inner `SZ_write` refused), and the read cursor of `src` has advanced over
all six bytes. -/
theorem SZ_copy_reports_success_without_room :
    SZ_readable ⟨100, 104, 110, 116⟩ 0 = 6 ∧
    SZ_writable ⟨200, 200, 212, 216⟩ 0 = 4 ∧
    (SZ_copy pingPong ⟨100, 104, 110, 116⟩ ⟨200, 200, 212, 216⟩).ret = 1 ∧
    (SZ_copy pingPong ⟨100, 104, 110, 116⟩ ⟨200, 200, 212, 216⟩).dst = ⟨200, 200, 212, 216⟩ ∧
    (SZ_copy pingPong ⟨100, 104, 110, 116⟩ ⟨200, 200, 212, 216⟩).src = ⟨100, 110, 110, 116⟩ ∧
    Mem.load (SZ_copy pingPong ⟨100, 104, 110, 116⟩ ⟨200, 200, 212, 216⟩).mem 200 16 =
      Mem.load pingPong 200 16 := by
  decide

/-- A number below `2 * cap` reduced modulo `cap`: itself or itself less `cap`. -/
theorem mod_below_two_cap (x cap : Nat) (h : x < 2 * cap) :
    (x < cap ∧ x % cap = x) ∨ (cap ≤ x ∧ x % cap = x - cap) := by
  by_cases hx : x < cap
  · exact Or.inl ⟨hx, Nat.mod_eq_of_lt hx⟩
  · have hge : cap ≤ x := by omega
    refine Or.inr ⟨hge, ?_⟩
    rw [Nat.mod_eq_sub_mod hge]
    exact Nat.mod_eq_of_lt (by omega)

/-- A ring is full exactly when it holds `cap - 1` items. -/
theorem Ring__full_iff_count (rb : RingBuf) (cap : Nat) (hcap : 2 ≤ cap)
    (hh : rb.head < cap) (ht : rb.tail < cap) :
    Ring__full rb cap = true ↔ Ring__count rb cap = cap - 1 := by
  simp only [Ring__full, Ring__count, decide_eq_true_eq]
  rcases mod_below_two_cap (rb.head + 1) cap (by omega) with ⟨_, e1⟩ | ⟨_, e1⟩ <;>
  rcases mod_below_two_cap (rb.head + cap - rb.tail) cap (by omega) with ⟨_, e2⟩ | ⟨_, e2⟩ <;>
  omega

/-- A push on a ring that is not full: the new head, one more item, and the
indices stay below `cap`. -/
theorem Ring__push_count (rb : RingBuf) (cap : Nat) (hcap : 2 ≤ cap)
    (hh : rb.head < cap) (ht : rb.tail < cap) (hnf : Ring__full rb cap = false) :
    Ring__push rb cap = (true, { rb with head := (rb.head + 1) % cap }) ∧
    Ring__count (Ring__push rb cap).2 cap = Ring__count rb cap + 1 ∧
    (Ring__push rb cap).2.head < cap ∧ (Ring__push rb cap).2.tail = rb.tail := by
  have hp : Ring__push rb cap = (true, { rb with head := (rb.head + 1) % cap }) := by
    simp [Ring__push, hnf]
  rw [hp]
  refine ⟨rfl, ?_, Nat.mod_lt _ (by omega), rfl⟩
  simp only [Ring__full, decide_eq_false_iff_not] at hnf
  simp only [Ring__count]
  rcases mod_below_two_cap (rb.head + 1) cap (by omega) with ⟨_, e1⟩ | ⟨_, e1⟩ <;>
  rcases mod_below_two_cap (rb.head + cap - rb.tail) cap (by omega) with ⟨_, e2⟩ | ⟨_, e2⟩ <;>
  rcases mod_below_two_cap ((rb.head + 1) % cap + cap - rb.tail) cap
    (by have := Nat.mod_lt (rb.head + 1) (show 0 < cap by omega); omega) with ⟨_, e3⟩ | ⟨_, e3⟩ <;>
  omega

/-- Pushing `k` times onto a ring with room for `k` more items adds `k` items. -/
theorem Ring__pushes_count (cap : Nat) (hcap : 2 ≤ cap) (k : Nat) :
    ∀ rb : RingBuf, rb.head < cap → rb.tail < cap → Ring__count rb cap + k ≤ cap - 1 →
      Ring__count (Ring__pushes k rb cap) cap = Ring__count rb cap + k ∧
      (Ring__pushes k rb cap).head < cap ∧ (Ring__pushes k rb cap).tail = rb.tail := by
  induction k with
  | zero =>
    intro rb hh _ _
    exact ⟨rfl, hh, rfl⟩
  | succ k ih =>
    intro rb hh ht hroom
    have hnf : Ring__full rb cap = false := by
      cases hf : Ring__full rb cap with
      | false => rfl
      | true =>
        have := (Ring__full_iff_count rb cap hcap hh ht).mp hf
        omega
    obtain ⟨_, hc, hh2, ht2⟩ := Ring__push_count rb cap hcap hh ht hnf
    have := ih (Ring__push rb cap).2 hh2 (by rw [ht2]; exact ht) (by omega)
    simp only [Ring__pushes]
    refine ⟨by omega, this.2.1, by rw [this.2.2, ht2]⟩

/-- C28. Ring buffer occupancy, for every `cap >= 2` and every ring with
`head, tail < cap`: `Ring__push` returns false and changes nothing if the ring
is full and otherwise returns true, advances `head` by one modulo `cap` and
leaves `tail`; `Ring__pop` returns false and changes nothing if the ring is
empty and otherwise returns true, advances `tail` by one modulo `cap` and
leaves `head`; the item count `(head - tail) mod cap` is at most `cap - 1`,
a push adds one and a pop takes one; the ring is full exactly at `cap - 1`
items and empty exactly at 0, never both; and from an empty ring the first
`cap - 1` consecutive pushes succeed and the next one fails. -/
theorem Ring__occupancy (rb : RingBuf) (cap : Nat) (hcap : 2 ≤ cap)
    (hh : rb.head < cap) (ht : rb.tail < cap) :
    (Ring__full rb cap = true → Ring__push rb cap = (false, rb)) ∧
    (Ring__full rb cap = false →
      Ring__push rb cap = (true, { rb with head := (rb.head + 1) % cap }) ∧
      Ring__count (Ring__push rb cap).2 cap = Ring__count rb cap + 1) ∧
    (Ring__empty rb = true → Ring__pop rb cap = (false, rb)) ∧
    (Ring__empty rb = false →
      Ring__pop rb cap = (true, { rb with tail := (rb.tail + 1) % cap }) ∧
      Ring__count (Ring__pop rb cap).2 cap + 1 = Ring__count rb cap) ∧
    Ring__count rb cap ≤ cap - 1 ∧
    (Ring__full rb cap = true ↔ Ring__count rb cap = cap - 1) ∧
    (Ring__empty rb = true ↔ Ring__count rb cap = 0) ∧
    ¬ (Ring__empty rb = true ∧ Ring__full rb cap = true) ∧
    (Ring__empty rb = true →
      (∀ k, k < cap - 1 → (Ring__push (Ring__pushes k rb cap) cap).1 = true) ∧
      (Ring__push (Ring__pushes (cap - 1) rb cap) cap).1 = false) := by
  have hfull := Ring__full_iff_count rb cap hcap hh ht
  have hempty : Ring__empty rb = true ↔ Ring__count rb cap = 0 := by
    simp only [Ring__empty, Ring__count, decide_eq_true_eq]
    rcases mod_below_two_cap (rb.head + cap - rb.tail) cap (by omega) with ⟨_, e2⟩ | ⟨_, e2⟩ <;>
    omega
  have hle : Ring__count rb cap ≤ cap - 1 := by
    have := Nat.mod_lt (rb.head + cap - rb.tail) (show 0 < cap by omega)
    simp only [Ring__count]
    omega
  refine ⟨?_, ?_, ?_, ?_, hle, hfull, hempty, ?_, ?_⟩
  · intro h
    simp [Ring__push, h]
  · intro h
    have := Ring__push_count rb cap hcap hh ht h
    exact ⟨this.1, this.2.1⟩
  · intro h
    simp [Ring__pop, h]
  · intro h
    have hp : Ring__pop rb cap = (true, { rb with tail := (rb.tail + 1) % cap }) := by
      simp [Ring__pop, h]
    rw [hp]
    refine ⟨rfl, ?_⟩
    simp only [Ring__empty, decide_eq_false_iff_not] at h
    simp only [Ring__count]
    have hm := Nat.mod_lt (rb.tail + 1) (show 0 < cap by omega)
    rcases mod_below_two_cap (rb.tail + 1) cap (by omega) with ⟨_, e1⟩ | ⟨_, e1⟩ <;>
    rcases mod_below_two_cap (rb.head + cap - rb.tail) cap (by omega) with ⟨_, e2⟩ | ⟨_, e2⟩ <;>
    rcases mod_below_two_cap (rb.head + cap - (rb.tail + 1) % cap) cap (by omega)
      with ⟨_, e3⟩ | ⟨_, e3⟩ <;>
    omega
  · rintro ⟨he, hf⟩
    have h0 := hempty.mp he
    have h1 := hfull.mp hf
    omega
  · intro he
    have h0 := hempty.mp he
    refine ⟨?_, ?_⟩
    · intro k hk
      obtain ⟨hc, hh2, ht2⟩ := Ring__pushes_count cap hcap k rb hh ht (by omega)
      cases hf : Ring__full (Ring__pushes k rb cap) cap with
      | false => simp [Ring__push, hf]
      | true =>
        have := (Ring__full_iff_count _ cap hcap hh2 (by rw [ht2]; exact ht)).mp hf
        omega
    · obtain ⟨hc, hh2, ht2⟩ := Ring__pushes_count cap hcap (cap - 1) rb hh ht (by omega)
      have hf : Ring__full (Ring__pushes (cap - 1) rb cap) cap = true :=
        (Ring__full_iff_count _ cap hcap hh2 (by rw [ht2]; exact ht)).mpr (by omega)
      simp [Ring__push, hf]

/-- Witness for C28: a ring of capacity 4, empty at index 3. -/
theorem Ring__occupancy_witness :
    Ring__push ⟨3, 3⟩ 4 = (true, ⟨0, 3⟩) ∧
    Ring__count ⟨3, 3⟩ 4 = 0 ∧
    (Ring__push (Ring__pushes 3 ⟨3, 3⟩ 4) 4).1 = false ∧
    Ring__pushes 3 ⟨3, 3⟩ 4 = ⟨2, 3⟩ :=
  ⟨((Ring__occupancy ⟨3, 3⟩ 4 (by decide) (by decide) (by decide)).2.1 (by decide)).1,
   (Ring__occupancy ⟨3, 3⟩ 4 (by decide) (by decide) (by decide)).2.2.2.2.2.2.1.mp (by decide),
   ((Ring__occupancy ⟨3, 3⟩ 4 (by decide) (by decide) (by decide)).2.2.2.2.2.2.2.2
      (by decide)).2,
   by decide⟩

/-- C29, evaluated at the failing input: the list 5, 3, 1 (ordered under
`cmpNat`, non-increasing from head to tail) and the new value 7.  The loop of
`List__insort` starts at the head and only ever compares with `c->next`, so
the new node goes behind the head: the list becomes 5, 7, 3, 1, which is not
ordered.  The length is 4 and the elements are the old ones plus 7. -/
theorem List__insort_never_before_head :
    List__walk heap531 8 list531.head = [5, 3, 1] ∧
    (List__insort 4 heap531 list531 40 7 cmpNat).map
        (fun r => (List__walk r.heap 8 r.list.head, r.list)) =
      some ([5, 7, 3, 1], { len := 4, head := 10, tail := 30 }) ∧
    cmpNat 7 5 = 1 := by
  decide

/-- C30, evaluated at the failing input: the document `{"names":1}` with the
cursor behind the brace, expected "name", len 4.  `Json__object_key` parses
the key (5 characters, "names") and the colon; `cstr__eq` compares only the
first 4 characters, and `Json__object_key_is` returns true. -/
theorem Json__object_key_is_accepts_longer_key :
    Json__object_key strtod_dec memNames jsonNames ⟨0, 0, false, false, 0⟩ =
      { ret := true
        json := { jsonNames with
                    cur := 9, token := JsonTok.JSON_COLON, token_start := 8
                    token_value :=
                      { str := { str := 1002, len := 5, slice := true, mut_ := false
                                 life := 0 } } }
        str := { str := 1002, len := 5, slice := true, mut_ := false, life := 0 } } ∧
    Mem.load memNames 1002 5 = [110, 97, 109, 101, 115] ∧
    Mem.load memNames 2000 5 = [110, 97, 109, 101, 0] ∧
    (Json__object_key_is strtod_dec memNames jsonNames 4 2000).1 = true := by
  decide

/-- C32, evaluated at the failing input: pause mask `0x80000000`, clock at
1000 ms, duration 5000 ms.  `T_complete` stores 2, so the timer counts as
started at 2 ms: `T_ended` and `T_completed` are false and `T_busy` is true
until the clock has passed `2 + duration`. -/
theorem T_complete_not_ended_early :
    T_complete 77 = 2 ∧
    T_ended ⟨2147483648, 1000⟩ (T_complete 77) 5000 = false ∧
    T_completed ⟨2147483648, 1000⟩ (T_complete 77) 5000 = false ∧
    T_busy ⟨2147483648, 1000⟩ (T_complete 77) 5000 = true ∧
    T_ended ⟨2147483648, 5003⟩ (T_complete 77) 5000 = true := by
  decide

/-- C33, as stated, fails on a connected socket in three ways: with
`maxLen = 0` (every backend) `Sock__read` returns `-1` at once; on the bridged
backend it returns `-1` on every call; on the Windows backend it returns `-1`
when the handle is `INVALID_SOCKET`.  In each case no backend call is made
and the state is still Connected. -/
theorem Sock__read_minus_one_stays_open :
    client5.state = SocketState.SOCKET_CONNECTED ∧
    Sock__read linux client5 0 ⟨4, 0, [80, 73, 78, 71]⟩ =
      { sock := client5, trace := [], ret := -1 } ∧
    Emscripten.Sock__read client5 4 = { sock := client5, trace := [], ret := -1 } ∧
    Win32.Sock__read winsock { client5 with _win_socket := winsock.INVALID_SOCKET } 4
        ⟨4, 0, [80, 73, 78, 71]⟩ =
      { sock := { client5 with _win_socket := winsock.INVALID_SOCKET }
        trace := [], ret := -1 } := by
  decide

/-- C33, amended. On the Linux backend, for every socket, every `maxLen >= 1`
and every result of `read` (a byte count, or `-1` with any `errno`), whenever
`Sock__read` returns `-1` the socket's state is Closed on return; the same
holds on the Windows backend when the handle is not `INVALID_SOCKET`, for
every result of `recv` (a byte count, or `SOCKET_ERROR` with any error code).
With `maxLen = 0` on either native backend, on the Windows backend with the
handle `INVALID_SOCKET`, and on the bridged backend on every call,
`Sock__read` returns `-1` with no backend call and the socket as it was. -/
theorem Sock__read_minus_one_closed (P : Posix) (W : Winsock) (socket : Socket)
    (maxLen : Nat) (o : ReadOutcome) :
    (1 ≤ maxLen → -1 ≤ o.ret → (Sock__read P socket maxLen o).ret = -1 →
      (Sock__read P socket maxLen o).sock.state = SocketState.SOCKET_CLOSED) ∧
    (1 ≤ maxLen → socket._win_socket ≠ W.INVALID_SOCKET →
      (0 ≤ o.ret ∨ o.ret = W.SOCKET_ERROR) →
      (Win32.Sock__read W socket maxLen o).ret = -1 →
      (Win32.Sock__read W socket maxLen o).sock.state = SocketState.SOCKET_CLOSED) ∧
    (maxLen = 0 →
      Sock__read P socket maxLen o = { sock := socket, trace := [], ret := -1 } ∧
      Win32.Sock__read W socket maxLen o = { sock := socket, trace := [], ret := -1 }) ∧
    (socket._win_socket = W.INVALID_SOCKET →
      Win32.Sock__read W socket maxLen o = { sock := socket, trace := [], ret := -1 }) ∧
    Emscripten.Sock__read socket maxLen = { sock := socket, trace := [], ret := -1 } := by
  refine ⟨?_, ?_, ?_, ?_, ?_⟩
  · intro hlen hret
    have hl : ¬ maxLen < 1 := by omega
    unfold Sock__read Sock__close
    simp only [hl, if_false]
    split_ifs <;> simp_all
    omega
  · intro hlen hv hret
    have hl : ¬ maxLen < 1 := by omega
    unfold Win32.Sock__read Win32.Sock__close
    simp only [hl, if_false]
    split_ifs <;> simp_all
    omega
  · intro h
    constructor
    · simp [Sock__read, h]
    · simp [Win32.Sock__read, h]
  · intro h
    unfold Win32.Sock__read
    simp only [h, ne_eq, not_true_eq_false, if_false]
    split_ifs <;> rfl
  · unfold Emscripten.Sock__read
    split_ifs <;> rfl

/-- Witness for C33 amended: end of stream on a connected socket on Linux and
on Windows, and a read with `maxLen = 0`. -/
theorem Sock__read_minus_one_closed_witness :
    (Sock__read linux client5 4 ⟨0, 0, [0, 0, 0, 0]⟩).sock.state = SocketState.SOCKET_CLOSED ∧
    (Win32.Sock__read winsock client5w 4 ⟨0, 0, [0, 0, 0, 0]⟩).sock.state =
      SocketState.SOCKET_CLOSED ∧
    Sock__read linux client5 0 ⟨0, 0, []⟩ = { sock := client5, trace := [], ret := -1 } ∧
    Win32.Sock__read winsock { client5 with _win_socket := winsock.INVALID_SOCKET } 4
        ⟨4, 0, [80, 73, 78, 71]⟩ =
      { sock := { client5 with _win_socket := winsock.INVALID_SOCKET }
        trace := [], ret := -1 } :=
  ⟨(Sock__read_minus_one_closed linux winsock client5 4 ⟨0, 0, [0, 0, 0, 0]⟩).1
      (by decide) (by decide) (by decide),
   (Sock__read_minus_one_closed linux winsock client5w 4 ⟨0, 0, [0, 0, 0, 0]⟩).2.1
      (by decide) (by decide) (by decide) (by decide),
   ((Sock__read_minus_one_closed linux winsock client5 0 ⟨0, 0, []⟩).2.2.1 rfl).1,
   (Sock__read_minus_one_closed linux winsock
      { client5 with _win_socket := winsock.INVALID_SOCKET } 4
      ⟨4, 0, [80, 73, 78, 71]⟩).2.2.2.1 rfl⟩

/-- C34, evaluated at the failing inputs: on the documents `trux` and `nul?`
`_Json__next_token` returns true with the token `JSON_TRUE` and `JSON_NULL`
and the cursor behind all four characters, whatever `strtod` does: the
comparison that fails on the last character has already stepped the symbol
pointer onto its terminator. -/
theorem _Json__next_token_accepts_trux (strtod : Strtod) :
    _Json__next_token strtod memTrux (jsonAt 1000) =
      (true, { jsonAt 1000 with cur := 4, token := JsonTok.JSON_TRUE }) ∧
    _Json__next_token strtod memTrux (jsonAt 2000) =
      (true, { jsonAt 2000 with cur := 4, token := JsonTok.JSON_NULL }) ∧
    Mem.load memTrux 1000 4 = [116, 114, 117, 120] ∧
    Mem.load memTrux 2000 4 = [110, 117, 108, 63] := by
  refine ⟨?_, ?_, ?_, ?_⟩ <;> rfl

/-- C37, evaluated at the failing inputs.  For the string "/foo" (length 4)
`Str8__filename` gives the whole string, slash included: the loop reads
`s->str[i]` for `i` from `len` down to 1 and never looks at index 0.  For the
slice "foo" of "foo/bar" it reads the slash behind the slice at index `len`,
sets `begin = 4 > end = 3`, and the length `end - begin` wraps to 65535. -/
theorem Str8__filename_misses_index_zero :
    Str8__filename 10 memPaths ⟨0, 0, false, false, 0⟩ ⟨1000, 4, false, false, 0⟩ =
      some (⟨1000, 4, false, false, 0⟩, ⟨1000, 4, false, false, 0⟩) ∧
    Mem.load memPaths 1000 4 = [47, 102, 111, 111] ∧
    Str8__filename 10 memPaths ⟨0, 0, false, false, 0⟩ ⟨2000, 3, true, false, 0⟩ =
      some (⟨2004, 65535, true, false, 0⟩, ⟨2000, 3, true, false, 0⟩) ∧
    Mem.load memPaths 2000 4 = [102, 111, 111, 47] := by
  decide

/-- C38, evaluated at the failing input: for `bytes = 2^60` the loop of
`_format_bytes` runs six times and ends with `idx = 6`, the number of entries
of `units`, so `units[idx]` is read behind the table; the value is then 1. -/
theorem _format_bytes_index_past_units :
    _format_bytes 1152921504606846976 =
      { num := 1152921504606846976, den := 1152921504606846976, idx := 6 } ∧
    format_bytes_units = 6 ∧
    (_format_bytes 18446744073709551615).idx = 6 ∧
    (_format_bytes 1152921504606846975).idx = 6 ∧
    (_format_bytes 1125899906842624).idx = 5 := by
  decide

/-- C39, evaluated at the failing inputs: on Linux `Thread__Mutex_create`
returns false when `pthread_mutex_init` returned 0 (success) and true when it
returned an error (12, `ENOMEM`); `Thread__create` and the Windows branch of
`Thread__Mutex_create` return true on success. -/
theorem Thread__Mutex_create_inverted :
    Thread__Mutex_create 0 = false ∧
    Thread__Mutex_create 12 = true ∧
    Thread__create 0 = true ∧
    Thread__create 11 = false ∧
    Win32.Thread__Mutex_create 64 = true ∧
    Win32.Thread__Mutex_create 0 = false := by
  decide

/-- C35, evaluated at the failing inputs: on the empty list `List__remove_item`
reads `list->head->data` with `head` `NULL`; on the list 5, 3, 1 with a value
no node holds, the loop reaches the last node and reads `c->next->data` with
`c->next` `NULL`.  Neither call returns.  A value that a node holds is
removed and 1 is returned. -/
theorem List__remove_item_absent_derefs_null :
    (List__remove_item heap531 ⟨0, 0, 0⟩ 9).isNone = true ∧
    List__walk heap531 8 list531.head = [5, 3, 1] ∧
    (List__remove_item heap531 list531 9).isNone = true ∧
    (List__remove_item heap531 list531 3).map
        (fun r => (r.ret, List__walk r.heap 8 r.list.head, r.list)) =
      some (1, [5, 1], { len := 2, head := 10, tail := 30 }) := by
  decide

/-- Skipping white space changes nothing but the cursor. -/
theorem _Json__skip_whitespace_loop_cur (m : Mem) (fuel : Nat) (json : Json) :
    _Json__skip_whitespace_loop m fuel json =
      { json with cur := (_Json__skip_whitespace_loop m fuel json).cur } := by
  induction fuel generalizing json with
  | zero => rfl
  | succ n ih =>
    unfold _Json__skip_whitespace_loop
    split_ifs with h
    · have := ih { json with cur := json.cur + 1 }
      rw [this]
    · rfl

/-- Where skipping white space ends does not depend on the token fields. -/
theorem _Json__skip_whitespace_loop_frame (m : Mem) (fuel : Nat) (json : Json)
    (t : JsonTok) (ts : Nat) :
    (_Json__skip_whitespace_loop m fuel { json with token := t, token_start := ts }).cur =
      (_Json__skip_whitespace_loop m fuel json).cur := by
  induction fuel generalizing json with
  | zero => rfl
  | succ n ih =>
    unfold _Json__skip_whitespace_loop
    by_cases h : json.cur < json.data.len ∧ isspace (m (json.data.str + json.cur)) = true
    · simp only [h, and_self, if_true]
      exact ih { json with cur := json.cur + 1 }
    · simp only [h, if_false]

/-- A punctuation character at the cursor, white space skipped, is the next
token: `_Json__next_token` returns true, with the cursor behind it. -/
theorem _Json__next_token_punct (strtod : Strtod) (m : Mem) (json : Json) (c : Nat)
    (hc : Json.nextChar m json c) (hp : _JSON_PUNCTS (c % 256) ≠ JsonTok.JSON_INVALID) :
    _Json__next_token strtod m json =
      (true, { json with
                 cur := (_Json__skip_whitespace m json).cur + 1
                 token := _JSON_PUNCTS (c % 256)
                 token_start := (_Json__skip_whitespace m json).cur }) := by
  obtain ⟨hlt, hm⟩ := hc
  have hskip : _Json__skip_whitespace m json =
      { json with cur := (_Json__skip_whitespace m json).cur } :=
    _Json__skip_whitespace_loop_cur m _ json
  generalize (_Json__skip_whitespace m json).cur = p at hlt hm hskip
  have hge : ¬ p ≥ json.data.len := by omega
  simp only [_Json__next_token, hskip, hge, hm, hp, ne_eq, not_false_eq_true, if_true, if_false]

/-- The next character is the same after a change of the token fields. -/
theorem Json.nextChar_frame (m : Mem) (json : Json) (c : Nat) (t : JsonTok) (ts : Nat)
    (hc : Json.nextChar m json c) :
    Json.nextChar m { json with token := t, token_start := ts } c ∧
    (_Json__skip_whitespace m { json with token := t, token_start := ts }).cur =
      (_Json__skip_whitespace m json).cur := by
  have h := _Json__skip_whitespace_loop_frame m (json.data.len - json.cur) json t ts
  have h2 : (_Json__skip_whitespace m { json with token := t, token_start := ts }).cur =
      (_Json__skip_whitespace m json).cur := h
  refine ⟨?_, h2⟩
  unfold Json.nextChar
  rw [h2]
  exact hc

/-- C31: JSON lookahead does not consume the closer.  When the next character
after white space is `]`, `Json__array_item` returns false and leaves the
cursor where it was before the call, and `Json__array_end` called next
returns true; when it is the closing brace, `Json__object_key` returns false
with the cursor likewise restored and the out-parameter untouched, and
`Json__object_end` called next returns true; when it is `,`,
`Json__array_item` returns true with the cursor just behind the comma; and
for any other token `_Json__next_token` accepts, `Json__array_item` returns
true with the cursor restored. -/
theorem Json__lookahead_keeps_closer (strtod : Strtod) (m : Mem) (json : Json) (str : Str8) :
    (Json.nextChar m json 93 →
      Json__array_item strtod m json =
        (false, { json with token := JsonTok.JSON_CBRACKET
                            token_start := (_Json__skip_whitespace m json).cur }) ∧
      (Json__array_item strtod m json).2.cur = json.cur ∧
      (Json__array_end strtod m (Json__array_item strtod m json).2).1 = true) ∧
    (Json.nextChar m json 125 →
      Json__object_key strtod m json str =
        { ret := false
          json := { json with token := JsonTok.JSON_CCURLY
                              token_start := (_Json__skip_whitespace m json).cur }
          str := str } ∧
      (Json__object_key strtod m json str).json.cur = json.cur ∧
      (Json__object_end strtod m (Json__object_key strtod m json str).json).1 = true) ∧
    (Json.nextChar m json 44 →
      Json__array_item strtod m json =
        (true, { json with cur := (_Json__skip_whitespace m json).cur + 1
                           token := JsonTok.JSON_COMMA
                           token_start := (_Json__skip_whitespace m json).cur })) ∧
    (∀ j1, _Json__next_token strtod m json = (true, j1) →
      j1.token ≠ JsonTok.JSON_COMMA → j1.token ≠ JsonTok.JSON_CBRACKET →
      Json__array_item strtod m json = (true, { j1 with cur := json.cur })) := by
  refine ⟨?_, ?_, ?_, ?_⟩
  · intro hc
    have e : _JSON_PUNCTS (93 % 256) = JsonTok.JSON_CBRACKET := by decide
    have h := _Json__next_token_punct strtod m json 93 hc (by decide)
    rw [e] at h
    have ha : Json__array_item strtod m json =
        (false, { json with token := JsonTok.JSON_CBRACKET
                            token_start := (_Json__skip_whitespace m json).cur }) := by
      simp [Json__array_item, h]
    obtain ⟨hc2, hs2⟩ := Json.nextChar_frame m json 93 JsonTok.JSON_CBRACKET
      (_Json__skip_whitespace m json).cur hc
    have h2 := _Json__next_token_punct strtod m _ 93 hc2 (by decide)
    rw [e] at h2
    refine ⟨ha, by rw [ha], ?_⟩
    rw [ha]
    simp [Json__array_end, _Json__expect_next_token, _Json__expect_token, h2]
  · intro hc
    have e : _JSON_PUNCTS (125 % 256) = JsonTok.JSON_CCURLY := by decide
    have h := _Json__next_token_punct strtod m json 125 hc (by decide)
    rw [e] at h
    have ha : Json__object_key strtod m json str =
        { ret := false
          json := { json with token := JsonTok.JSON_CCURLY
                              token_start := (_Json__skip_whitespace m json).cur }
          str := str } := by
      simp [Json__object_key, h]
    obtain ⟨hc2, hs2⟩ := Json.nextChar_frame m json 125 JsonTok.JSON_CCURLY
      (_Json__skip_whitespace m json).cur hc
    have h2 := _Json__next_token_punct strtod m _ 125 hc2 (by decide)
    rw [e] at h2
    refine ⟨ha, by rw [ha], ?_⟩
    rw [ha]
    simp [Json__object_end, _Json__expect_next_token, _Json__expect_token, h2]
  · intro hc
    have e : _JSON_PUNCTS (44 % 256) = JsonTok.JSON_COMMA := by decide
    have h := _Json__next_token_punct strtod m json 44 hc (by decide)
    rw [e] at h
    simp [Json__array_item, h]
  · intro j1 h hcomma hbr
    simp [Json__array_item, h, hcomma, hbr]

/-- C31 at concrete documents: in `[7, 8 ]` with the cursor at 5 the closing
bracket is left for `Json__array_end`, with the cursor at 2 the comma is
consumed, with the cursor at 1 the number is looked at and not consumed; in
`{ }` with the cursor at 1 the closing brace is left for `Json__object_end`. -/
theorem Json__lookahead_keeps_closer_witness :
    (Json.nextChar memDocs (jsonDoc 1000 7 5) 93 ∧
      (Json__array_item strtod_dec memDocs (jsonDoc 1000 7 5)).1 = false ∧
      (Json__array_item strtod_dec memDocs (jsonDoc 1000 7 5)).2.cur = 5 ∧
      (Json__array_end strtod_dec memDocs
        (Json__array_item strtod_dec memDocs (jsonDoc 1000 7 5)).2).1 = true) ∧
    (Json.nextChar memDocs (jsonDoc 2000 3 1) 125 ∧
      (Json__object_key strtod_dec memDocs (jsonDoc 2000 3 1) (jsonDoc 0 0 0).data).ret = false ∧
      (Json__object_key strtod_dec memDocs (jsonDoc 2000 3 1) (jsonDoc 0 0 0).data).json.cur = 1 ∧
      (Json__object_end strtod_dec memDocs
        (Json__object_key strtod_dec memDocs (jsonDoc 2000 3 1)
          (jsonDoc 0 0 0).data).json).1 = true) ∧
    (Json.nextChar memDocs (jsonDoc 1000 7 2) 44 ∧
      (Json__array_item strtod_dec memDocs (jsonDoc 1000 7 2)).1 = true ∧
      (Json__array_item strtod_dec memDocs (jsonDoc 1000 7 2)).2.cur = 3) ∧
    ((_Json__next_token strtod_dec memDocs (jsonDoc 1000 7 1)).1 = true ∧
      (_Json__next_token strtod_dec memDocs (jsonDoc 1000 7 1)).2.token = JsonTok.JSON_NUMBER ∧
      (Json__array_item strtod_dec memDocs (jsonDoc 1000 7 1)).1 = true ∧
      (Json__array_item strtod_dec memDocs (jsonDoc 1000 7 1)).2.cur = 1) := by
  have c1 : Json.nextChar memDocs (jsonDoc 1000 7 5) 93 := by
    unfold Json.nextChar; decide
  have c2 : Json.nextChar memDocs (jsonDoc 2000 3 1) 125 := by
    unfold Json.nextChar; decide
  have c3 : Json.nextChar memDocs (jsonDoc 1000 7 2) 44 := by
    unfold Json.nextChar; decide
  have c4 : _Json__next_token strtod_dec memDocs (jsonDoc 1000 7 1) =
      (true, (_Json__next_token strtod_dec memDocs (jsonDoc 1000 7 1)).2) := by decide
  have t4 : (_Json__next_token strtod_dec memDocs (jsonDoc 1000 7 1)).2.token =
      JsonTok.JSON_NUMBER := by decide
  have h1 := (Json__lookahead_keeps_closer strtod_dec memDocs (jsonDoc 1000 7 5)
    (jsonDoc 0 0 0).data).1 c1
  have h2 := (Json__lookahead_keeps_closer strtod_dec memDocs (jsonDoc 2000 3 1)
    (jsonDoc 0 0 0).data).2.1 c2
  have h3 := (Json__lookahead_keeps_closer strtod_dec memDocs (jsonDoc 1000 7 2)
    (jsonDoc 0 0 0).data).2.2.1 c3
  have h4 := (Json__lookahead_keeps_closer strtod_dec memDocs (jsonDoc 1000 7 1)
    (jsonDoc 0 0 0).data).2.2.2 _ c4 (by rw [t4]; decide) (by rw [t4]; decide)
  refine ⟨⟨c1, ?_, h1.2.1, h1.2.2⟩, ⟨c2, ?_, h2.2.1, h2.2.2⟩, ⟨c3, ?_, ?_⟩, ?_, t4, ?_, ?_⟩
  · rw [h1.1]
  · rw [h2.1]
  · rw [h3]
  · rw [h3]; decide
  · rw [c4]
  · rw [h4]
  · rw [h4]; rfl

/-- A chain only depends on the nodes it runs through. -/
theorem NodeHeap.seg_frame (h h2 : NodeHeap) (ps : List Nat) (p q : Nat)
    (hs : NodeHeap.seg h p ps q) (hf : ∀ a ∈ ps, h2 a = h a) :
    NodeHeap.seg h2 p ps q := by
  induction ps generalizing p with
  | nil => exact hs
  | cons a as ih =>
    obtain ⟨h1, h0, hr⟩ := hs
    refine ⟨h1, h0, ?_⟩
    rw [hf a (List.mem_cons_self a as)]
    exact ih _ hr (fun b hb => hf b (List.mem_cons_of_mem a hb))

/-- Two chains that meet make one chain. -/
theorem NodeHeap.seg_append (h : NodeHeap) (ps qs : List Nat) (p q r : Nat)
    (hs : NodeHeap.seg h p ps q) (ht : NodeHeap.seg h q qs r) :
    NodeHeap.seg h p (ps ++ qs) r := by
  induction ps generalizing p with
  | nil =>
    have e : p = q := hs
    rw [e]; exact ht
  | cons a as ih =>
    obtain ⟨h1, h0, hr⟩ := hs
    exact ⟨h1, h0, ih _ hr⟩

/-- A chain splits at any point. -/
theorem NodeHeap.seg_split (h : NodeHeap) (ps qs : List Nat) (p r : Nat)
    (hs : NodeHeap.seg h p (ps ++ qs) r) :
    ∃ q, NodeHeap.seg h p ps q ∧ NodeHeap.seg h q qs r := by
  induction ps generalizing p with
  | nil => exact ⟨p, rfl, hs⟩
  | cons a as ih =>
    obtain ⟨h1, h0, hr⟩ := hs
    obtain ⟨q, hq1, hq2⟩ := ih _ hr
    exact ⟨q, ⟨h1, h0, hq1⟩, hq2⟩

/-- The last node of a chain: the chain leads to it, it is not `NULL`, and its
`next` is where the chain ends. -/
theorem NodeHeap.seg_snoc (h : NodeHeap) (init : List Nat) (last p q : Nat)
    (hs : NodeHeap.seg h p (init ++ [last]) q) :
    NodeHeap.seg h p init last ∧ last ≠ 0 ∧ (h last).next = q := by
  obtain ⟨m, h1, h2⟩ := NodeHeap.seg_split h init [last] p q hs
  obtain ⟨e, h0, hn⟩ := h2
  have hn2 : (h last).next = q := hn
  rw [e] at h1
  exact ⟨h1, h0, hn2⟩

/-- From one pointer there is only one chain to `NULL`. -/
theorem NodeHeap.seg_unique (h : NodeHeap) (ps qs : List Nat) (p : Nat)
    (hs : NodeHeap.seg h p ps 0) (ht : NodeHeap.seg h p qs 0) : ps = qs := by
  induction ps generalizing p qs with
  | nil =>
    have e : p = 0 := hs
    cases qs with
    | nil => rfl
    | cons b bs =>
      obtain ⟨h1, h0, _⟩ := ht
      omega
  | cons a as ih =>
    obtain ⟨h1, h0, hr⟩ := hs
    cases qs with
    | nil =>
      have e : p = 0 := ht
      omega
    | cons b bs =>
      obtain ⟨g1, g0, gr⟩ := ht
      have hab : a = b := by omega
      subst hab
      rw [ih bs _ hr gr]

/-- A chain to `NULL` visits no node twice. -/
theorem NodeHeap.seg_nodup (h : NodeHeap) (ps : List Nat) (p : Nat)
    (hs : NodeHeap.seg h p ps 0) : ps.Nodup := by
  induction ps generalizing p with
  | nil => exact List.nodup_nil
  | cons a as ih =>
    have hs0 := hs
    obtain ⟨h1, h0, hr⟩ := hs
    refine List.nodup_cons.mpr ⟨?_, ih _ hr⟩
    intro hmem
    obtain ⟨l1, l2, e⟩ := List.append_of_mem hmem
    rw [e] at hr
    obtain ⟨q, _, hq2⟩ := NodeHeap.seg_split h l1 (a :: l2) _ 0 hr
    have hq3 : NodeHeap.seg h a (a :: l2) 0 := ⟨rfl, hq2.2.1, hq2.2.2⟩
    have hq4 : NodeHeap.seg h a (a :: as) 0 := ⟨rfl, h0, by rw [e]; exact hr⟩
    have := NodeHeap.seg_unique h _ _ a hq4 hq3
    have hl := congrArg List.length this
    rw [e] at hl
    simp at hl
    omega

/-- Writing the `next` member of a node leaves every `data` member as it is. -/
theorem NodeHeap.set_next_data (h : NodeHeap) (p x a : Nat) :
    ((h.set p { h p with next := x }) a).data = (h a).data := by
  unfold NodeHeap.set
  split_ifs with e
  · rw [e]
  · rfl

/-- Two lists with a last element are equal part by part. -/
theorem List.snoc_eq_snoc (i1 i2 : List Nat) (a b : Nat) (e : i1 ++ [a] = i2 ++ [b]) :
    i1 = i2 ∧ a = b := by
  have := List.append_inj' e rfl
  simpa using this

/-- The loop of `List__get` on a chain: `i` steps lead to the `i`-th node, which
is not `NULL`. -/
theorem List__get_loop_seg (h : NodeHeap) (i : Nat) (rest : List Nat) (c q : Nat)
    (hs : NodeHeap.seg h c rest q) (hi : i < rest.length) :
    List__get_loop h i c = some (rest.getD i 0) ∧ rest.getD i 0 ≠ 0 := by
  induction i generalizing rest c with
  | zero =>
    cases rest with
    | nil => simp at hi
    | cons a as =>
      obtain ⟨h1, h0, _⟩ := hs
      subst h1
      exact ⟨rfl, h0⟩
  | succ n ih =>
    cases rest with
    | nil => simp at hi
    | cons a as =>
      obtain ⟨h1, h0, hr⟩ := hs
      have hi2 : n < as.length := by simpa using hi
      have hc : c ≠ 0 := by omega
      have := ih as _ hr hi2
      unfold List__get_loop
      rw [if_neg hc, h1]
      exact this

/-- On a well-formed list `List__get` returns the `i`-th value of the
sequence, and `NULL` from `len` on. -/
theorem List__get_wf (h : NodeHeap) (list : List_t) (ps : List Nat)
    (hwf : list.wf h ps) (i : Nat) :
    List__get h list i = some ((h.values ps).getD i 0) := by
  obtain ⟨hs, hl, _⟩ := hwf
  unfold List__get
  by_cases hi : i ≥ list.len
  · rw [if_pos hi, List.getD_eq_default]
    simp [NodeHeap.values]; omega
  · rw [if_neg hi]
    have hi2 : i < ps.length := by omega
    obtain ⟨e, h0⟩ := List__get_loop_seg h i ps _ 0 hs hi2
    rw [e]
    simp only [h0, if_false]
    congr 1
    simp [NodeHeap.values, List.getD_eq_getElem?_getD, List.getElem?_map, hi2]

/-- The loop of `List__pop` on a chain: it stops at the last node, cuts it off
behind the node before it and returns its value. -/
theorem List__pop_loop_seg (h : NodeHeap) (list : List_t) (last : Nat)
    (hlen : list.len < 4294967296) (init : List Nat) (n i prev c : Nat)
    (hs : NodeHeap.seg h c (init ++ [last]) 0)
    (hi : i + init.length + 1 = list.len) (hn : init.length + 1 ≤ n)
    (hp : init = [] → prev ≠ 0) :
    ∃ r, List__pop_loop h list n i prev c = some r ∧ r.ret = (h last).data ∧
      r.heap = h.set ((prev :: init).getLastD 0)
        { h ((prev :: init).getLastD 0) with next := 0 } ∧
      r.list = { list with tail := (prev :: init).getLastD 0
                           len := list.len - 1 } := by
  induction init generalizing n i prev c with
  | nil =>
    obtain ⟨h1, h0, _⟩ := hs
    obtain ⟨n2, rfl⟩ : ∃ n2, n = n2 + 1 := ⟨n - 1, by simp at hn; omega⟩
    have hu : toU32 ((list.len : Int) - 1) = list.len - 1 := by
      unfold toU32; simp at hi; omega
    have hi2 : i = list.len - 1 := by simp at hi; omega
    have hp0 := hp rfl
    have hc : c ≠ 0 := by omega
    unfold List__pop_loop
    rw [hu, if_pos hi2, if_neg hp0, if_neg hc]
    refine ⟨_, rfl, ?_, rfl, rfl⟩
    rw [h1]
    exact NodeHeap.set_next_data h prev 0 last
  | cons a as ih =>
    obtain ⟨h1, h0, hr⟩ := hs
    obtain ⟨n2, rfl⟩ : ∃ n2, n = n2 + 1 := ⟨n - 1, by simp at hn; omega⟩
    have hu : toU32 ((list.len : Int) - 1) = list.len - 1 := by
      unfold toU32; simp at hi; omega
    have hi2 : ¬ i = list.len - 1 := by simp at hi; omega
    have hc : c ≠ 0 := by omega
    unfold List__pop_loop
    rw [hu, if_neg hi2, if_neg hc]
    have := ih n2 (i + 1) c (h c).next (by rw [h1]; exact hr)
      (by simp at hi ⊢; omega) (by simp at hn ⊢; omega) (fun _ => hc)
    rw [h1] at this ⊢
    simpa using this

/-- A list is empty or has a last element. -/
theorem List.nil_or_snoc (l : List Nat) : l = [] ∨ ∃ i a, l = i ++ [a] := by
  rcases List.eq_nil_or_concat l with e | ⟨i, a, e⟩
  · exact Or.inl e
  · exact Or.inr ⟨i, a, by rw [e, List.concat_eq_append]⟩

/-- The sequence of values only depends on the `data` members of the nodes. -/
theorem NodeHeap.values_congr (h h2 : NodeHeap) (ps : List Nat)
    (hf : ∀ a ∈ ps, (h2 a).data = (h a).data) : h2.values ps = h.values ps := by
  unfold NodeHeap.values
  exact List.map_congr_left hf

/-- On a well-formed list whose length stays below `2^32`, `List__append` with
a fresh node adds the value at the end and keeps the list well-formed. -/
theorem List__append_wf (h : NodeHeap) (list : List_t) (ps : List Nat) (node data : Nat)
    (hwf : list.wf h ps) (hn0 : node ≠ 0) (hfresh : node ∉ ps)
    (hlen : list.len + 1 < 4294967296) :
    ∃ r, List__append h list node data = some r ∧ r.list.wf r.heap (ps ++ [node]) ∧
      r.heap.values (ps ++ [node]) = h.values ps ++ [data] := by
  obtain ⟨hs, hl, ht⟩ := hwf
  have hu : toU32 ((list.len : Int) + 1) = list.len + 1 := by unfold toU32; omega
  rcases List.nil_or_snoc ps with rfl | ⟨init, last, rfl⟩
  · have hl0 : 0 = list.len := by simpa using hl.symm
    unfold List__append
    rw [if_pos hl0]
    refine ⟨_, rfl, ⟨?_, ?_, ?_⟩, ?_⟩
    · exact ⟨rfl, hn0, by simp [NodeHeap.set, NodeHeap.seg]⟩
    · simp only [hu]; simp [← hl0]
    · intro i l e
      have := List.snoc_eq_snoc [] i node l (by simpa using e)
      exact this.2
    · simp [NodeHeap.values, NodeHeap.set]
  · have hlast := ht init last rfl
    obtain ⟨hsi, hl0, hnx⟩ := NodeHeap.seg_snoc h init last _ 0 hs
    have hnd := NodeHeap.seg_nodup h _ _ hs
    have hlen0 : ¬ 0 = list.len := by simp at hl; omega
    have hne : last ≠ node := by intro e; apply hfresh; simp [e]
    have hninit : node ∉ init := fun hm => hfresh (by simp [hm])
    have hlinit : last ∉ init := by
      intro hm
      rw [List.nodup_append] at hnd
      exact hnd.2.2 hm (by simp)
    unfold List__append
    rw [if_neg hlen0, hlast, if_neg hl0]
    refine ⟨_, rfl, ⟨?_, ?_, ?_⟩, ?_⟩
    · show NodeHeap.seg _ list.head (init ++ [last] ++ [node]) 0
      rw [List.append_assoc]
      apply NodeHeap.seg_append _ init _ _ last 0
      · apply NodeHeap.seg_frame h _ init _ _ hsi
        intro a ha
        have h1 : a ≠ last := fun e => hlinit (e ▸ ha)
        have h2 : a ≠ node := fun e => hninit (e ▸ ha)
        simp [NodeHeap.set, h1, h2]
      · refine ⟨rfl, hl0, ?_, hn0, ?_⟩
        · simp [NodeHeap.set]
        · simp [NodeHeap.set, NodeHeap.seg, hne.symm]
    · simp only [hu]; simp [hl]
    · intro i l e
      have := List.snoc_eq_snoc (init ++ [last]) i node l e
      exact this.2
    · unfold NodeHeap.values
      rw [List.map_append]
      congr 1
      · apply List.map_congr_left
        intro a ha
        have h2 : a ≠ node := fun e => hfresh (e ▸ ha)
        rw [NodeHeap.set_next_data]
        simp [NodeHeap.set, h2]
      · simp only [List.map_cons, List.map_nil]
        rw [NodeHeap.set_next_data]
        simp [NodeHeap.set]

/-- On a well-formed list whose length stays below `2^32`, `List__prepend`
with a fresh node adds the value at the front and keeps the list
well-formed. -/
theorem List__prepend_wf (h : NodeHeap) (list : List_t) (ps : List Nat) (node data : Nat)
    (hwf : list.wf h ps) (hn0 : node ≠ 0) (hfresh : node ∉ ps)
    (hlen : list.len + 1 < 4294967296) :
    (List__prepend h list node data).list.wf (List__prepend h list node data).heap
      (node :: ps) ∧
    (List__prepend h list node data).heap.values (node :: ps) = data :: h.values ps := by
  obtain ⟨hs, hl, ht⟩ := hwf
  have hu : toU32 ((list.len : Int) + 1) = list.len + 1 := by unfold toU32; omega
  rcases List.nil_or_snoc ps with rfl | ⟨init, last, rfl⟩
  · have hl0 : 0 = list.len := by simpa using hl.symm
    unfold List__prepend
    rw [if_pos hl0]
    refine ⟨⟨?_, ?_, ?_⟩, ?_⟩
    · exact ⟨rfl, hn0, by simp [NodeHeap.set, NodeHeap.seg]⟩
    · simp only [hu]; simp [← hl0]
    · intro i l e
      have := List.snoc_eq_snoc [] i node l (by simpa using e)
      exact this.2
    · simp [NodeHeap.values, NodeHeap.set]
  · have hlast := ht init last rfl
    have hlen0 : ¬ 0 = list.len := by simp at hl; omega
    unfold List__prepend
    rw [if_neg hlen0]
    refine ⟨⟨?_, ?_, ?_⟩, ?_⟩
    · refine ⟨rfl, hn0, ?_⟩
      have e : ∀ (g : NodeHeap) (n : List__Node), ((g.set node n) node) = n := by
        intro g n; simp [NodeHeap.set]
      show NodeHeap.seg _ (((h.set node _).set node _) node).next _ 0
      simp only [e]
      apply NodeHeap.seg_frame h _ _ _ _ hs
      intro a ha
      have h2 : a ≠ node := fun e => hfresh (e ▸ ha)
      simp [NodeHeap.set, h2]
    · simp only [hu]; simp [hl]
    · intro i l e
      have := List.snoc_eq_snoc (node :: init) i last l (by simpa using e)
      rw [← this.2]
      exact hlast
    · unfold NodeHeap.values
      rw [List.map_cons]
      congr 1
      · simp [NodeHeap.set]
      · apply List.map_congr_left
        intro a ha
        have h2 : a ≠ node := fun e => hfresh (e ▸ ha)
        simp [NodeHeap.set, h2]

/-- On a well-formed list `List__shift` returns the first value (`NULL` on the
empty list), removes it and keeps the list well-formed. -/
theorem List__shift_wf (h : NodeHeap) (list : List_t) (ps : List Nat)
    (hwf : list.wf h ps) (hlen : list.len < 4294967296) :
    ∃ r, List__shift h list = some r ∧ r.list.wf r.heap ps.tail ∧
      r.heap.values ps.tail = (h.values ps).tail ∧ r.ret = (h.values ps).headD 0 := by
  obtain ⟨hs, hl, ht⟩ := hwf
  cases ps with
  | nil =>
    have hl0 : 0 = list.len := by simpa using hl.symm
    unfold List__shift
    rw [if_pos hl0]
    exact ⟨_, rfl, ⟨hs, hl, ht⟩, rfl, rfl⟩
  | cons a as =>
    obtain ⟨h1, h0, hr⟩ := hs
    have hlen0 : ¬ 0 = list.len := by simp at hl; omega
    have hc : list.head ≠ 0 := by omega
    unfold List__shift
    rw [if_neg hlen0]
    by_cases hone : 1 = list.len
    · rw [if_pos hone]
      simp only [hc, if_false]
      have has : as = [] := by
        cases as with
        | nil => rfl
        | cons b bs => simp at hl; omega
      subst has
      refine ⟨_, rfl, ⟨rfl, rfl, ?_⟩, rfl, ?_⟩
      · intro i l e; simp at e
      · simp [NodeHeap.values, h1]
    · rw [if_neg hone]
      simp only [hc, if_false]
      have hu : toU32 ((list.len : Int) - 1) = list.len - 1 := by unfold toU32; omega
      refine ⟨_, rfl, ⟨?_, ?_, ?_⟩, rfl, ?_⟩
      · show NodeHeap.seg h (h list.head).next as 0
        rw [h1]; exact hr
      · simp only [hu]; simp at hl ⊢; omega
      · intro i l e
        exact ht (a :: i) l (by simp at e; simp [e])
      · simp [NodeHeap.values, h1]

/-- On a well-formed list `List__pop` returns the last value (`NULL` on the
empty list), removes it and keeps the list well-formed. -/
theorem List__pop_wf (h : NodeHeap) (list : List_t) (ps : List Nat)
    (hwf : list.wf h ps) (hlen : list.len < 4294967296) :
    ∃ r, List__pop h list = some r ∧ r.list.wf r.heap ps.dropLast ∧
      r.heap.values ps.dropLast = (h.values ps).dropLast ∧
      r.ret = (h.values ps).getLastD 0 := by
  obtain ⟨hs, hl, ht⟩ := hwf
  rcases List.nil_or_snoc ps with rfl | ⟨init, last, rfl⟩
  · have hl0 : 0 = list.len := by simpa using hl.symm
    unfold List__pop
    rw [if_pos hl0]
    exact ⟨_, rfl, ⟨hs, hl, ht⟩, rfl, rfl⟩
  · have hlen0 : ¬ 0 = list.len := by simp at hl; omega
    unfold List__pop
    rw [if_neg hlen0]
    rcases List.nil_or_snoc init with rfl | ⟨init2, pv, rfl⟩
    · obtain ⟨h1, h0, hr⟩ := hs
      have hone : 1 = list.len := by simp at hl; omega
      have hc : list.head ≠ 0 := by omega
      rw [if_pos hone]
      simp only [hc, if_false]
      refine ⟨_, rfl, ⟨rfl, rfl, ?_⟩, rfl, ?_⟩
      · intro i l e; simp at e
      · simp [NodeHeap.values, h1]
    · have hone : ¬ 1 = list.len := by simp at hl; omega
      rw [if_neg hone]
      obtain ⟨r, hr, hret, hheap, hlist⟩ := List__pop_loop_seg h list last hlen
        (init2 ++ [pv]) list.len 0 0 list.head hs (by simp at hl ⊢; omega)
        (by simp at hl ⊢; omega) (by simp)
      have hpv : (0 :: (init2 ++ [pv])).getLastD 0 = pv := by
        have e : (0 :: (init2 ++ [pv])) = (0 :: init2) ++ [pv] := rfl
        rw [e, List.getLastD_eq_getLast?, List.getLast?_concat]
        rfl
      rw [hpv] at hheap hlist
      obtain ⟨hsi, hl0, hnx⟩ := NodeHeap.seg_snoc h (init2 ++ [pv]) last _ 0 hs
      obtain ⟨hsi2, hpv0, _⟩ := NodeHeap.seg_snoc h init2 pv _ last hsi
      have hnd := NodeHeap.seg_nodup h _ _ hs
      have hpinit : pv ∉ init2 := by
        intro hm
        rw [List.nodup_append] at hnd
        have hnd1 := hnd.1
        rw [List.nodup_append] at hnd1
        exact hnd1.2.2 hm (by simp)
      refine ⟨r, hr, ⟨?_, ?_, ?_⟩, ?_, ?_⟩
      · rw [hheap, hlist, List.dropLast_concat]
        apply NodeHeap.seg_append _ init2 [pv] _ pv 0
        · apply NodeHeap.seg_frame h _ init2 _ _ hsi2
          intro a ha
          have h1 : a ≠ pv := fun e => hpinit (e ▸ ha)
          simp [NodeHeap.set, h1]
        · exact ⟨rfl, hpv0, by simp [NodeHeap.set, NodeHeap.seg]⟩
      · rw [hlist, List.dropLast_concat]; simp at hl ⊢; omega
      · rw [hlist, List.dropLast_concat]
        intro i l e
        exact (List.snoc_eq_snoc init2 i pv l e).2
      · rw [hheap, List.dropLast_concat]
        unfold NodeHeap.values
        have e2 : List.map (fun p => (h p).data) (init2 ++ [pv] ++ [last]) =
            List.map (fun p => (h p).data) (init2 ++ [pv]) ++ [(h last).data] := by simp
        rw [e2, List.dropLast_concat]
        apply List.map_congr_left
        intro a _
        exact NodeHeap.set_next_data h pv 0 a
      · rw [hret]
        simp [NodeHeap.values]

/-- The nodes of `heapChain` from address `p` up to `2^32 - 1` are a chain to
`NULL`. -/
theorem heapChain_seg (n p : Nat) (hp : p ≠ 0) (hn : p + n = 4294967295) :
    NodeHeap.seg heapChain p (List.range' p (n + 1)) 0 := by
  induction n generalizing p with
  | zero =>
    have e : p = 4294967295 := by omega
    subst e
    exact ⟨rfl, hp, rfl⟩
  | succ k ih =>
    rw [List.range'_succ]
    refine ⟨rfl, hp, ?_⟩
    have e : (heapChain p).next = p + 1 := by
      unfold heapChain
      simp only []
      rw [if_pos (by omega)]
    rw [e]
    exact ih (p + 1) (by omega) (by omega)

/-- The list of `2^32 - 1` nodes is well-formed. -/
theorem listChain_wf : listChain.wf heapChain (List.range' 1 4294967295) := by
  have hs : NodeHeap.seg heapChain 1 (List.range' 1 4294967295) 0 :=
    heapChain_seg 4294967294 1 (by omega) (by omega)
  refine ⟨hs, (List.length_range' _ _ _).symm, ?_⟩
  intro init last e
  rw [e] at hs
  obtain ⟨_, _, hnx⟩ := NodeHeap.seg_snoc heapChain init last _ 0 hs
  have hm : last ∈ List.range' 1 4294967295 := by rw [e]; simp
  rw [List.mem_range'_1] at hm
  have hge : ¬ last < 4294967295 := by
    intro hlt
    unfold heapChain at hnx
    simp only [] at hnx
    rw [if_pos hlt] at hnx
    omega
  show 4294967295 = last
  omega

/-- C36, where the claim as written fails.  A well-formed list of one node
that holds `NULL` as its element: `List__get(0)` returns `NULL` although 0
is below `len`.  A well-formed list of `2^32 - 1` nodes: `List__append` with a
fresh node wraps the `u32` member `len` to 0 while `head` is not `NULL`, so
the list it leaves is not well-formed for any sequence of nodes. -/
theorem List__get_null_element_append_wraps :
    (({ len := 1, head := 10, tail := 10 } : List_t).wf heapNull [10] ∧
      0 < ({ len := 1, head := 10, tail := 10 } : List_t).len ∧
      List__get heapNull { len := 1, head := 10, tail := 10 } 0 = some 0) ∧
    (listChain.wf heapChain (List.range' 1 4294967295) ∧
      4294967296 ∉ List.range' 1 4294967295 ∧
      (List__append heapChain listChain 4294967296 7).map (fun r => r.list) =
        some { len := 0, head := 1, tail := 4294967296 } ∧
      ∀ r, List__append heapChain listChain 4294967296 7 = some r →
        ∀ ps, ¬ r.list.wf r.heap ps) := by
  have happ : (List__append heapChain listChain 4294967296 7).map (fun r => r.list) =
      some { len := 0, head := 1, tail := 4294967296 } := by decide
  refine ⟨⟨⟨⟨rfl, by decide, rfl⟩, rfl, ?_⟩, by decide, by decide⟩,
    listChain_wf, ?_, happ, ?_⟩
  · intro init last e
    exact (List.snoc_eq_snoc [] init 10 last (by simpa using e)).2
  · rw [List.mem_range'_1]; omega
  · intro r hr ps hwf
    rw [hr] at happ
    have hl : r.list = { len := 0, head := 1, tail := 4294967296 } := by
      simpa using happ
    obtain ⟨hs, hlen, _⟩ := hwf
    rw [hl] at hs hlen
    have hps : ps = [] := List.length_eq_zero.mp hlen.symm
    rw [hps] at hs
    have e : 1 = 0 := hs
    omega

/-- C36, amended: for a well-formed list with nodes `ps` (`len < 2^32`, as the
member is a `u32`), standing for the sequence of the `data` values of its
nodes: `List__append` and `List__prepend`, given a fresh node that is not
`NULL` and `len + 1 < 2^32`, add the value at the end and at the front;
`List__shift` removes and returns the first value and `List__pop` the last
one, both returning `NULL` on the empty list; `List__get(i)` returns the
`i`-th value for `i < len` and `NULL` for `i >= len`; every one of them
returns, and leaves a well-formed list. -/
theorem List__refines_sequence (h : NodeHeap) (list : List_t) (ps : List Nat)
    (hwf : list.wf h ps) (hlen : list.len < 4294967296) :
    (∀ node data, node ≠ 0 → node ∉ ps → list.len + 1 < 4294967296 →
      ∃ r, List__append h list node data = some r ∧ r.list.wf r.heap (ps ++ [node]) ∧
        r.heap.values (ps ++ [node]) = h.values ps ++ [data]) ∧
    (∀ node data, node ≠ 0 → node ∉ ps → list.len + 1 < 4294967296 →
      (List__prepend h list node data).list.wf (List__prepend h list node data).heap
        (node :: ps) ∧
      (List__prepend h list node data).heap.values (node :: ps) = data :: h.values ps) ∧
    (∃ r, List__shift h list = some r ∧ r.list.wf r.heap ps.tail ∧
      r.heap.values ps.tail = (h.values ps).tail ∧ r.ret = (h.values ps).headD 0) ∧
    (∃ r, List__pop h list = some r ∧ r.list.wf r.heap ps.dropLast ∧
      r.heap.values ps.dropLast = (h.values ps).dropLast ∧
      r.ret = (h.values ps).getLastD 0) ∧
    (∀ i, List__get h list i = some ((h.values ps).getD i 0)) :=
  ⟨fun node data hn0 hf hl => List__append_wf h list ps node data hwf hn0 hf hl,
   fun node data hn0 hf hl => List__prepend_wf h list ps node data hwf hn0 hf hl,
   List__shift_wf h list ps hwf hlen,
   List__pop_wf h list ps hwf hlen,
   fun i => List__get_wf h list ps hwf i⟩

/-- C36 on the list 5, 3, 1 in the nodes at 10, 20 and 30: appending 7 in a
node at 40 gives 5, 3, 1, 7; prepending it gives 7, 5, 3, 1; `List__shift`
returns 5 and leaves 3, 1; `List__pop` returns 1 and leaves 5, 3;
`List__get` returns 3 at index 1 and `NULL` at index 3. -/
theorem List__refines_sequence_witness :
    list531.wf heap531 [10, 20, 30] ∧ list531.len < 4294967296 ∧
    heap531.values [10, 20, 30] = [5, 3, 1] ∧
    (∃ r, List__append heap531 list531 40 7 = some r ∧
      r.list.wf r.heap [10, 20, 30, 40] ∧ r.heap.values [10, 20, 30, 40] = [5, 3, 1, 7]) ∧
    ((List__prepend heap531 list531 40 7).list.wf (List__prepend heap531 list531 40 7).heap
        [40, 10, 20, 30] ∧
      (List__prepend heap531 list531 40 7).heap.values [40, 10, 20, 30] = [7, 5, 3, 1]) ∧
    (∃ r, List__shift heap531 list531 = some r ∧ r.list.wf r.heap [20, 30] ∧
      r.heap.values [20, 30] = [3, 1] ∧ r.ret = 5) ∧
    (∃ r, List__pop heap531 list531 = some r ∧ r.list.wf r.heap [10, 20] ∧
      r.heap.values [10, 20] = [5, 3] ∧ r.ret = 1) ∧
    List__get heap531 list531 1 = some 3 ∧ List__get heap531 list531 3 = some 0 := by
  have hw : list531.wf heap531 [10, 20, 30] := by
    refine ⟨⟨rfl, by decide, rfl, by decide, rfl, by decide, rfl⟩, rfl, ?_⟩
    intro init last e
    exact (List.snoc_eq_snoc [10, 20] init 30 last e).2
  have hv : heap531.values [10, 20, 30] = [5, 3, 1] := by decide
  have T := List__refines_sequence heap531 list531 [10, 20, 30] hw (by decide)
  rw [hv] at T
  exact ⟨hw, by decide, hv, T.1 40 7 (by decide) (by decide) (by decide),
    T.2.1 40 7 (by decide) (by decide) (by decide), T.2.2.1, T.2.2.2.1,
    T.2.2.2.2 1, T.2.2.2.2 3⟩
